import Mathlib

/-!
Verification of the packet transformation pipeline of the meshtastic-bridge
repository (source file plugins.py), via a shallow embedding into Lean.

Python values flowing through the pipeline (packets, configurations, nested
JSON-like data) are embedded as the type `Val`.  Python dictionaries are
ordered association lists (`ValD`), Python lists are `ValS`.  Numbers are
embedded as rationals (covering Python ints and the arithmetic the code
performs on them; no claim here depends on float rounding).  A raised Python
exception is embedded as `Except.error` carrying the exception class name;
a Python function that returns normally yields `Except.ok`.  The `None`
packet value ("dropped") is `Option.none` in a result `Option Val`.

External collaborators (the regex engine, the jwcrypto library, the JSON
module where only its interface matters, HTTP, broker handles, the device
interface) are passed as explicit parameters to the stage functions, exactly
at the call sites where plugins.py invokes them.  The JSON module used by
`PacketFilter.normalize` is modelled concretely (`jsonLoads`) on the
JSON fragment the claims exercise: objects, arrays, strings, integers,
booleans and null; serialized floats are outside the modelled fragment.
-/

mutual
inductive Val where
  | vStr : String → Val
  | vNum : ℚ → Val
  | vBool : Bool → Val
  | vNull : Val
  | vBytes : List Nat → Val
  | vList : ValS → Val
  | vDict : ValD → Val
deriving DecidableEq, Repr
inductive ValS where
  | nil : ValS
  | cons : Val → ValS → ValS
deriving DecidableEq, Repr
inductive ValD where
  | nil : ValD
  | cons : String → Val → ValD → ValD
deriving DecidableEq, Repr
end

deriving instance DecidableEq for Except

/-- Build an embedded Python list from a Lean list. -/
def ValS.ofList : List Val → ValS
  | [] => .nil
  | v :: rest => .cons v (ValS.ofList rest)

/-- Build an embedded Python dict from a Lean association list. -/
def ValD.ofList : List (String × Val) → ValD
  | [] => .nil
  | (k, v) :: rest => .cons k v (ValD.ofList rest)

/-- Dict lookup by key: first entry with the key, as in a Python dict. -/
def getKV : ValD → String → Option Val
  | .nil, _ => none
  | .cons k v rest, key => if k = key then some v else getKV rest key

/-- Dict update `d[key] = x`: replace the value of an existing key in place,
otherwise append the new entry, as a Python dict assignment does. -/
def setKV : ValD → String → Val → ValD
  | .nil, key, x => .cons key x .nil
  | .cons k v rest, key, x =>
      if k = key then .cons key x rest else .cons k v (setKV rest key x)

/-- Length of an embedded list. -/
def ValS.len : ValS → Nat
  | .nil => 0
  | .cons _ rest => 1 + ValS.len rest

/-- Zero-based positional access into an embedded list. -/
def ValS.idx : ValS → Nat → Option Val
  | .nil, _ => none
  | .cons v _, 0 => some v
  | .cons _ rest, n + 1 => ValS.idx rest n

/-- Whether a character sequence starts with the given pattern. -/
def leadsWith : List Char → List Char → Bool
  | [], _ => true
  | _ :: _, [] => false
  | p :: ps, c :: cs => p == c && leadsWith ps cs

/-- Whether a character sequence has the pattern as a contiguous part;
Python `sub in s` on strings, with the empty pattern always contained. -/
def containsPat : List Char → List Char → Bool
  | [], pat => pat.isEmpty
  | c :: rest, pat => leadsWith pat (c :: rest) || containsPat rest pat

/-- Python substring test `sub in s`. -/
def pyContains (s sub : String) : Bool := containsPat s.data sub.data

/-- Fuel-bounded worker for `replacePat`; the fuel never runs out when it
starts at the length of the subject. -/
def replacePatAux : Nat → List Char → List Char → List Char → List Char
  | 0, s, _, _ => s
  | _ + 1, [], _, _ => []
  | fuel + 1, c :: rest, pat, rep =>
      match pat with
      | [] => c :: rest
      | p :: ps =>
          if leadsWith (p :: ps) (c :: rest) then
            rep ++ replacePatAux fuel (List.drop ps.length rest) (p :: ps) rep
          else
            c :: replacePatAux fuel rest (p :: ps) rep

/-- Python `s.replace(pat, rep)`: replace the non-overlapping occurrences
left to right (an empty pattern never occurs in the program). -/
def replacePat (s pat rep : List Char) : List Char :=
  replacePatAux s.length s pat rep

/-- Python `s.replace(pat, rep)` on strings. -/
def pyReplace (s pat rep : String) : String :=
  String.mk (replacePat s.data pat.data rep.data)

/-- Python truthiness of an embedded value. -/
def pyTruthy : Val → Bool
  | .vStr s => s != ""
  | .vNum q => q != 0
  | .vBool b => b
  | .vNull => false
  | .vBytes bs => !bs.isEmpty
  | .vList .nil => false
  | .vList _ => true
  | .vDict .nil => false
  | .vDict _ => true

/-- Membership of an embedded list, by Python equality. -/
def ValS.anyEq : ValS → Val → Bool
  | .nil, _ => false
  | .cons v rest, x => decide (v = x) || ValS.anyEq rest x

/-- Membership among the keys of an embedded dict, by Python equality. -/
def ValD.anyKeyEq : ValD → Val → Bool
  | .nil, _ => false
  | .cons k _ rest, x => decide (Val.vStr k = x) || ValD.anyKeyEq rest x

/-- Python `x in container`: key membership for dicts, element membership
for lists, substring for strings, TypeError otherwise. -/
def valMemV (x container : Val) : Except String Bool :=
  match container with
  | .vList l => .ok (ValS.anyEq l x)
  | .vDict kvs => .ok (ValD.anyKeyEq kvs x)
  | .vStr s =>
      match x with
      | .vStr xs => .ok (pyContains s xs)
      | _ => .error "TypeError"
  | _ => .error "TypeError"

/-- Python `k in container` for a string literal key. -/
def keyMem (k : String) (container : Val) : Except String Bool :=
  valMemV (.vStr k) container

/-- Python subscript `container[idx]`: dict key lookup (KeyError on a miss),
list indexing with int indexes (negative indexes wrap, IndexError out of
range, TypeError on a non-integral number), TypeError otherwise. -/
def getItem (container idx : Val) : Except String Val :=
  match container, idx with
  | .vDict kvs, .vStr k =>
      match getKV kvs k with
      | some v => .ok v
      | none => .error "KeyError"
  | .vDict _, _ => .error "KeyError"
  | .vList l, .vNum q =>
      if q.den = 1 then
        let n : Int := ValS.len l
        let j : Int := if q.num < 0 then q.num + n else q.num
        if 0 ≤ j ∧ j < n then
          match ValS.idx l j.toNat with
          | some v => .ok v
          | none => .error "IndexError"
        else .error "IndexError"
      else .error "TypeError"
  | _, _ => .error "TypeError"

/-- Python subscript with a string literal key. -/
def dictGet (container : Val) (k : String) : Except String Val :=
  getItem container (.vStr k)

/-- Python dict assignment `container[k] = x`; TypeError if the target does
not support string-key assignment. -/
def setItem (container : Val) (k : String) (x : Val) : Except String Val :=
  match container with
  | .vDict kvs => .ok (.vDict (setKV kvs k x))
  | _ => .error "TypeError"

/-- Python numeric coercion used by order comparisons against a number:
ints/floats compare as themselves, booleans as 0/1, anything else is a
TypeError. -/
def toNum : Val → Except String ℚ
  | .vNum q => .ok q
  | .vBool b => .ok (if b then 1 else 0)
  | _ => .error "TypeError"

/-- The characters of a string as an embedded list of 1-character strings,
as Python iteration over a string yields. -/
def charsToValS : List Char → ValS
  | [] => .nil
  | c :: rest => .cons (.vStr (String.mk [c])) (charsToValS rest)

/-- The keys of an embedded dict, as Python iteration over a dict yields. -/
def keysToValS : ValD → ValS
  | .nil => .nil
  | .cons k _ rest => .cons (.vStr k) (keysToValS rest)

/-- Python `for x in container`: the sequence of iterates, or TypeError for
a non-iterable value. -/
def toIter : Val → Except String ValS
  | .vList l => .ok l
  | .vStr s => .ok (charsToValS s.data)
  | .vDict kvs => .ok (keysToValS kvs)
  | _ => .error "TypeError"

/-- Python `str(x)` on the scalar values the program converts (container
reprs are abbreviated; the program only converts scalars). -/
def pyStr : Val → String
  | .vStr s => s
  | .vNum q => if q.den = 1 then toString q.num else toString q
  | .vBool b => if b then "True" else "False"
  | .vNull => "None"
  | .vBytes _ => "bytes-object"
  | .vList _ => "list-object"
  | .vDict _ => "dict-object"

/-! ## A model of the JSON module (external library used by the plugins)

`jsonLoads` embeds `json.loads` on the JSON fragment that the claims about the pipeline
exercise (objects, arrays, strings without escapes beyond the simple ones,
integers, booleans, null); a non-string argument raises TypeError as in
Python, and anything outside the fragment is a decode error.  `jsonDumps`
embeds `json.dumps`, raising TypeError on non-serializable bytes. -/

/-- JSON whitespace. -/
def isWsChar (c : Char) : Bool := c == ' ' || c == '\t' || c == '\n' || c == '\r'

/-- Drop leading JSON whitespace. -/
def skipWs : List Char → List Char
  | [] => []
  | c :: rest => if isWsChar c then skipWs rest else c :: rest

/-- ASCII decimal digit. -/
def isDigitChar (c : Char) : Bool := '0' ≤ c && c ≤ '9'

/-- Accumulate decimal digits into a natural number. -/
def digitsToNat : List Char → Nat → Nat
  | [], acc => acc
  | c :: rest, acc => digitsToNat rest (acc * 10 + (c.toNat - 48))

/-- Scan a JSON string body up to the closing quote, decoding the simple
escapes; yields the content and the remainder after the quote. -/
def scanStrBody : List Char → Option (List Char × List Char)
  | [] => none
  | c :: rest =>
      if c == '"' then some ([], rest)
      else if c == '\\' then
        match rest with
        | [] => none
        | e :: rest2 =>
            let d := if e == 'n' then '\n' else if e == 't' then '\t'
                     else if e == 'r' then '\r' else e
            match scanStrBody rest2 with
            | some (cs, rem) => some (d :: cs, rem)
            | none => none
      else
        match scanStrBody rest with
        | some (cs, rem) => some (c :: cs, rem)
        | none => none

mutual
/-- Parse one JSON value (fuel-bounded recursive descent). -/
def parseV : Nat → List Char → Option (Val × List Char)
  | 0, _ => none
  | fuel + 1, input =>
      let s := skipWs input
      match s with
      | [] => none
      | c :: rest =>
          if leadsWith ['t', 'r', 'u', 'e'] s then some (.vBool true, List.drop 4 s)
          else if leadsWith ['f', 'a', 'l', 's', 'e'] s then some (.vBool false, List.drop 5 s)
          else if leadsWith ['n', 'u', 'l', 'l'] s then some (.vNull, List.drop 4 s)
          else if c == '"' then
            match scanStrBody rest with
            | some (cs, rem) => some (.vStr (String.mk cs), rem)
            | none => none
          else if c == '[' then parseArr fuel rest
          else if c == Char.ofNat 123 then parseObj fuel rest
          else if c == '-' then
            let ds := rest.takeWhile isDigitChar
            if ds.isEmpty then none
            else some (.vNum (-(digitsToNat ds 0 : ℚ)), rest.dropWhile isDigitChar)
          else if isDigitChar c then
            let ds := s.takeWhile isDigitChar
            some (.vNum (digitsToNat ds 0 : ℚ), s.dropWhile isDigitChar)
          else none
/-- Parse the items of a JSON array after the opening bracket. -/
def parseArr : Nat → List Char → Option (Val × List Char)
  | 0, _ => none
  | fuel + 1, input =>
      let s := skipWs input
      match s with
      | [] => none
      | c :: rest =>
          if c == ']' then some (.vList .nil, rest)
          else
            match parseItems fuel s with
            | some (items, rem) => some (.vList items, rem)
            | none => none
/-- One or more comma-separated array items, up to the closing bracket. -/
def parseItems : Nat → List Char → Option (ValS × List Char)
  | 0, _ => none
  | fuel + 1, input =>
      match parseV fuel input with
      | none => none
      | some (v, rem) =>
          match skipWs rem with
          | [] => none
          | c :: rest =>
              if c == ',' then
                match parseItems fuel rest with
                | some (vs, rem2) => some (.cons v vs, rem2)
                | none => none
              else if c == ']' then some (.cons v .nil, rest)
              else none
/-- Parse the members of a JSON object after the opening brace. -/
def parseObj : Nat → List Char → Option (Val × List Char)
  | 0, _ => none
  | fuel + 1, input =>
      let s := skipWs input
      match s with
      | [] => none
      | c :: rest =>
          if c == Char.ofNat 125 then some (.vDict .nil, rest)
          else
            match parseMembers fuel s with
            | some (kvs, rem) => some (.vDict kvs, rem)
            | none => none
/-- One or more comma-separated `"key": value` members, up to the closing
brace. -/
def parseMembers : Nat → List Char → Option (ValD × List Char)
  | 0, _ => none
  | fuel + 1, input =>
      match skipWs input with
      | [] => none
      | c :: rest =>
          if c == '"' then
            match scanStrBody rest with
            | none => none
            | some (kcs, rem) =>
                match skipWs rem with
                | ':' :: rest2 =>
                    match parseV fuel rest2 with
                    | none => none
                    | some (v, rem2) =>
                        match skipWs rem2 with
                        | [] => none
                        | c2 :: rest3 =>
                            if c2 == ',' then
                              match parseMembers fuel rest3 with
                              | some (kvs, rem3) => some (.cons (String.mk kcs) v kvs, rem3)
                              | none => none
                            else if c2 == Char.ofNat 125 then
                              some (.cons (String.mk kcs) v .nil, rest3)
                            else none
                | _ => none
          else none
end

/-- The function `json.loads` of the JSON module, on embedded values: parse a string,
TypeError on a non-string argument, decode error otherwise. -/
def jsonLoads : Val → Except String Val
  | .vStr s =>
      match parseV (2 * s.data.length + 8) s.data with
      | some (v, rem) => if (skipWs rem).isEmpty then .ok v else .error "JSONDecodeError"
      | none => .error "JSONDecodeError"
  | _ => .error "TypeError"

/-- Escape one character for JSON output. -/
def escChar (c : Char) : List Char :=
  if c == '"' || c == '\\' then ['\\', c]
  else if c == '\n' then ['\\', 'n']
  else if c == '\t' then ['\\', 't']
  else [c]

/-- Escape a character sequence for JSON output. -/
def escStr : List Char → List Char
  | [] => []
  | c :: rest => escChar c ++ escStr rest

mutual
/-- The function `json.dumps` of the JSON module on embedded values; bytes are not JSON
serializable (TypeError), as in Python. -/
def jsonDumps : Val → Except String String
  | .vStr s => .ok ("\"" ++ String.mk (escStr s.data) ++ "\"")
  | .vNum q => .ok (if q.den = 1 then toString q.num else toString q)
  | .vBool b => .ok (if b then "true" else "false")
  | .vNull => .ok "null"
  | .vBytes _ => .error "TypeError"
  | .vList l => do
      let s ← dumpItems l
      pure ("[" ++ s ++ "]")
  | .vDict kvs => do
      let s ← dumpMembers kvs
      pure ("\x7b" ++ s ++ "\x7d")
/-- Comma-join serialized array items. -/
def dumpItems : ValS → Except String String
  | .nil => .ok ""
  | .cons v .nil => jsonDumps v
  | .cons v rest => do
      let a ← jsonDumps v
      let b ← dumpItems rest
      pure (a ++ ", " ++ b)
/-- Comma-join serialized object members. -/
def dumpMembers : ValD → Except String String
  | .nil => .ok ""
  | .cons k v .nil => do
      let a ← jsonDumps v
      pure ("\"" ++ String.mk (escStr k.data) ++ "\": " ++ a)
  | .cons k v rest => do
      let a ← jsonDumps v
      let b ← dumpMembers rest
      pure ("\"" ++ String.mk (escStr k.data) ++ "\": " ++ a ++ ", " ++ b)
end

/-! ## PacketFilter (plugins.py lines 35-78) -/

mutual
/-- The `PacketFilter.strip_raw`: on a dict, delete the `raw` key and recurse
into the remaining values; any non-dict value is returned unchanged. -/
def PacketFilter.strip_raw : Val → Val
  | .vDict kvs => .vDict (PacketFilter.stripRawD kvs)
  | v => v
/-- The `strip_raw` over the entries of a dict. -/
def PacketFilter.stripRawD : ValD → ValD
  | .nil => .nil
  | .cons k v rest =>
      if k = "raw" then PacketFilter.stripRawD rest
      else .cons k (PacketFilter.strip_raw v) (PacketFilter.stripRawD rest)
end

/-- The `PacketFilter.normalize`: a non-dict packet is parsed as JSON, and on
any parse/type failure wrapped as a text packet; the result is stripped of
`raw` keys. -/
def PacketFilter.normalize (dict_obj : Val) : Val :=
  match dict_obj with
  | .vDict _ => PacketFilter.strip_raw dict_obj
  | _ =>
      match jsonLoads dict_obj with
      | .ok v => PacketFilter.strip_raw v
      | .error _ =>
          PacketFilter.strip_raw
            (.vDict (.cons "decoded" (.vDict (.cons "text" dict_obj .nil)) .nil))

/-- The `PacketFilter.do_action`: normalize, then base64-re-encode a raw bytes
payload (the base64 encoder is an external collaborator parameter). -/
def PacketFilter.do_action (b64encode : List Nat → String) (packet : Val) :
    Except String Val := do
  let p := PacketFilter.normalize packet
  let hasDec ← keyMem "decoded" p
  if hasDec then do
    let dec ← dictGet p "decoded"
    let hasPayload ← keyMem "payload" dec
    if hasPayload then do
      let pl ← dictGet dec "payload"
      match pl with
      | .vBytes bs => do
          let dec2 ← setItem dec "payload" (.vStr (b64encode bs))
          setItem p "decoded" dec2
      | _ => pure p
    else pure p
  else pure p

/-! ## MessageFilter (plugins.py lines 109-178) -/

/-- The inner loop over the patterns of a message allow/disallow list:
`re.search` (the external regex engine, parameter `research`) is applied to
each pattern until one matches; once a match is found the remaining
patterns are not evaluated.  A non-string pattern or message text raises
TypeError exactly when `re.search` would be called on it. -/
def MessageFilter.researchLoop (research : String → String → Bool) :
    ValS → Val → Except String Bool
  | .nil, _ => .ok false
  | .cons pv rest, t =>
      match pv, t with
      | .vStr ps, .vStr ts =>
          if research ps ts then .ok true
          else MessageFilter.researchLoop research rest t
      | _, _ => .error "TypeError"

/-- The `message` allow/disallow section of `MessageFilter.do_action`
(lines 119-142), evaluated when the packet has truthy text and the config
has a `message` entry; `true` means the packet is dropped. -/
def MessageFilter.msgSection (research : String → String → Bool)
    (config tv : Val) : Except String Bool := do
  let mcfg ← dictGet config "message"
  let hasAllow ← keyMem "allow" mcfg
  let d1 ←
    if hasAllow then do
      let av ← dictGet mcfg "allow"
      let pats ← toIter av
      let hit ← MessageFilter.researchLoop research pats tv
      pure (!hit)
    else pure false
  if d1 then pure true
  else do
    let hasDis ← keyMem "disallow" mcfg
    if hasDis then do
      let dv ← dictGet mcfg "disallow"
      let pats ← toIter dv
      MessageFilter.researchLoop research pats tv
    else pure false

/-- One attribute check of the `filters` loop (lines 150-172): drop when a
non-empty `allow` list lacks the value, or a non-empty `disallow` list
contains it; an empty list is falsy and imposes nothing. -/
def MessageFilter.attrCheck (config : Val) (filter_key : String) (value : Val) :
    Except String Bool := do
  let hasK ← keyMem filter_key config
  if !hasK then pure false
  else do
    let filter_val ← dictGet config filter_key
    let hasAllow ← keyMem "allow" filter_val
    let dropAllow ←
      if hasAllow then do
        let av ← dictGet filter_val "allow"
        if pyTruthy av then do
          let m ← valMemV value av
          pure (!m)
        else pure false
      else pure false
    if dropAllow then pure true
    else do
      let hasDis ← keyMem "disallow" filter_val
      if hasDis then do
        let dv ← dictGet filter_val "disallow"
        if pyTruthy dv then valMemV value dv
        else pure false
      else pure false

/-- The attribute-filter section of `MessageFilter.do_action` (lines
144-175): builds `app`/`from`/`to` values (each subscript may raise
KeyError) and drops at the first violated rule. -/
def MessageFilter.attrSection (config p : Val) : Except String (Option Val) := do
  let dec ← dictGet p "decoded"
  let appv ← dictGet dec "portnum"
  let fromv ← dictGet p "fromId"
  let tov ← dictGet p "toId"
  let r1 ← MessageFilter.attrCheck config "app" appv
  if r1 then pure none
  else do
    let r2 ← MessageFilter.attrCheck config "from" fromv
    if r2 then pure none
    else do
      let r3 ← MessageFilter.attrCheck config "to" tov
      if r3 then pure none
      else pure (some p)

/-- The `MessageFilter.do_action` (lines 112-175): a falsy packet passes
through; otherwise the message text section then the attribute section run,
`none` meaning the packet is dropped. -/
def MessageFilter.do_action (research : String → String → Bool)
    (config : Val) (packet : Option Val) : Except String (Option Val) :=
  match packet with
  | none => .ok none
  | some p =>
      if !pyTruthy p then .ok (some p)
      else do
        let dec ← dictGet p "decoded"
        let hasText ← keyMem "text" dec
        let text ←
          if hasText then do
            let tv ← dictGet dec "text"
            pure (some tv)
          else pure none
        let textTruthy := match text with
          | some tv => pyTruthy tv
          | none => false
        let hasMsg ← if textTruthy then keyMem "message" config else pure false
        if textTruthy && hasMsg then do
          let d ← MessageFilter.msgSection research config (text.getD .vNull)
          if d then pure none
          else MessageFilter.attrSection config p
        else MessageFilter.attrSection config p

/-! ## LocationFilter (plugins.py lines 181-242) -/

/-- Lines 188-193: the reference position from the configured device's
node info, when that device is registered. -/
def LocationFilter.devicePos (devices config : Val) :
    Except String (Option (Val × Val)) := do
  let hasDev ← keyMem "device" config
  if hasDev then do
    let dname ← dictGet config "device"
    let isin ← valMemV dname devices
    if isin then do
      let nodeInfo ← getItem devices dname
      let pos ← dictGet nodeInfo "position"
      let la ← dictGet pos "latitude"
      let lo ← dictGet pos "longitude"
      pure (some (la, lo))
    else pure none
  else pure none

/-- Lines 195-204: the position carried by the packet, when all of
`decoded.position.latitude/longitude` are present. -/
def LocationFilter.sourcePos (packet : Val) :
    Except String (Option (Val × Val)) := do
  let b1 ← keyMem "decoded" packet
  if b1 then do
    let dec ← dictGet packet "decoded"
    let b2 ← keyMem "position" dec
    if b2 then do
      let pos ← dictGet dec "position"
      let b3 ← keyMem "latitude" pos
      if b3 then do
        let b4 ← keyMem "longitude" pos
        if b4 then do
          let la ← dictGet pos "latitude"
          let lo ← dictGet pos "longitude"
          pure (some (la, lo))
        else pure none
      else pure none
    else pure none
  else pure none

/-- Lines 206-210: the static `compare_latitude`/`compare_longitude`
override of the reference position. -/
def LocationFilter.staticPos (config : Val) (dflt : Option (Val × Val)) :
    Except String (Option (Val × Val)) := do
  let b5 ← keyMem "compare_latitude" config
  let b6 ← if b5 then keyMem "compare_longitude" config else pure false
  if b5 && b6 then do
    let la ← dictGet config "compare_latitude"
    let lo ← dictGet config "compare_longitude"
    pure (some (la, lo))
  else pure dflt

/-- Line 215-217: the comparison mode, `within` when not configured. -/
def LocationFilter.getComparison (config : Val) : Except String Val := do
  let hasCmp ← keyMem "comparison" config
  if hasCmp then dictGet config "comparison" else pure (.vStr "within")

/-- Lines 212-232: the distance check; `true` means the packet is dropped.
`haversine` is the external geodesic-distance collaborator. -/
def LocationFilter.distanceCheck (haversine : Val × Val → Val × Val → ℚ)
    (config : Val) (mp cp : Val × Val) : Except String Bool := do
  let distance_km := haversine mp cp
  let comparison ← LocationFilter.getComparison config
  let hasMax ← keyMem "max_distance_km" config
  if hasMax then do
    let mv ← dictGet config "max_distance_km"
    let acceptable ← toNum mv
    if acceptable > 0 then
      if comparison = .vStr "within" ∧ distance_km > acceptable then pure true
      else if comparison = .vStr "outside" ∧ distance_km < acceptable then pure true
      else pure false
    else pure false
  else pure false

/-- Lines 234-235: overwrite `decoded.position.latitude` with the
statically configured value when configured (each subscript may raise
KeyError on a packet without a position). -/
def LocationFilter.maskLat (config packet : Val) : Except String Val := do
  let hasLat ← keyMem "latitude" config
  if hasLat then do
    let lv ← dictGet config "latitude"
    let dec ← dictGet packet "decoded"
    let pos ← dictGet dec "position"
    let pos2 ← setItem pos "latitude" lv
    let dec2 ← setItem dec "position" pos2
    setItem packet "decoded" dec2
  else pure packet

/-- Lines 236-237: overwrite `decoded.position.longitude` with the
statically configured value when configured. -/
def LocationFilter.maskLng (config packet : Val) : Except String Val := do
  let hasLng ← keyMem "longitude" config
  if hasLng then do
    let lv ← dictGet config "longitude"
    let dec ← dictGet packet "decoded"
    let pos ← dictGet dec "position"
    let pos2 ← setItem pos "longitude" lv
    let dec2 ← setItem dec "position" pos2
    setItem packet "decoded" dec2
  else pure packet

/-- Lines 234-237: both position overwrites in source order. -/
def LocationFilter.applyMask (config packet : Val) : Except String Val := do
  let p1 ← LocationFilter.maskLat config packet
  LocationFilter.maskLng config p1

/-- Line 212: the distance check runs only when both positions resolved. -/
def LocationFilter.dropStep (haversine : Val × Val → Val × Val → ℚ)
    (config : Val) (msrc cur : Option (Val × Val)) : Except String Bool :=
  match msrc, cur with
  | some mp, some cp => LocationFilter.distanceCheck haversine config mp cp
  | _, _ => pure false

/-- Lines 227/232 vs 234-239: return the drop marker, or the masked
packet. -/
def LocationFilter.finishStep (config packet : Val) (dropped : Bool) :
    Except String (Option Val) :=
  if dropped then pure none
  else do
    let p2 ← LocationFilter.applyMask config packet
    pure (some p2)

/-- The `LocationFilter.do_action` (lines 184-239). -/
def LocationFilter.do_action (haversine : Val × Val → Val × Val → ℚ)
    (devices config packet : Val) : Except String (Option Val) := do
  let cur0 ← LocationFilter.devicePos devices config
  let msrc ← LocationFilter.sourcePos packet
  let cur ← LocationFilter.staticPos config cur0
  let dropped ← LocationFilter.dropStep haversine config msrc cur
  LocationFilter.finishStep config packet dropped

/-! ## MQTTPlugin (plugins.py lines 301-337)

A broker connection handle is embedded as the `Val` found under its name in
the `mqtt_servers` dict: `vBool b` with `b` the value of `is_connected()`.
`publish`/`wait_for_publish` are external delivery effects with no influence
on the returned packet. -/

/-- The `MQTTPlugin.do_action`: missing `name`/`topic` config or an
unestablished server passes the packet through; an established but
disconnected server hits the bare `return` of line 320, which yields the
no-value marker `none`. -/
def MQTTPlugin.do_action (mqtt_servers config packet : Val) :
    Except String (Option Val) := do
  let hasName ← keyMem "name" config
  if !hasName then pure (some packet)
  else do
    let hasTopic ← keyMem "topic" config
    if !hasTopic then pure (some packet)
    else do
      let nm ← dictGet config "name"
      let established ← valMemV nm mqtt_servers
      if !established then pure (some packet)
      else do
        let server ← getItem mqtt_servers nm
        let connected := match server with
          | .vBool b => b
          | _ => false
        if !connected then pure none
        else do
          let _packet_message ← jsonDumps packet
          let hasMsg ← keyMem "message" config
          let _message ←
            if hasMsg then do
              let mv ← dictGet config "message"
              let dec ← dictGet packet "decoded"
              let tv ← dictGet dec "text"
              match mv, tv with
              | .vStr ms, .vStr ts => pure (pyReplace ms "\x7bMSG\x7d" ts)
              | _, _ => .error "TypeError"
            else pure _packet_message
          pure (some packet)

/-! ## OwntracksPlugin (plugins.py lines 340-420) -/

/-- Python `x != 0` as the Owntracks position guards use it: numbers and
booleans compare numerically, any other value is unequal to 0. -/
def pyNeZero : Val → Bool
  | .vNum q => q != 0
  | .vBool b => b
  | _ => true

/-- Lines 400-417 of `OwntracksPlugin.do_action`: the publish step; an
established but disconnected server hits the bare `return` of line 408,
which yields the no-value marker `none`. -/
def OwntracksPlugin.publishPart (mqtt_servers config entry message packet : Val) :
    Except String (Option Val) := do
  let srvName ← dictGet config "server_name"
  let established ← valMemV srvName mqtt_servers
  if !established then pure (some packet)
  else do
    let server ← getItem mqtt_servers srvName
    let connected := match server with
      | .vBool b => b
      | _ => false
    if !connected then pure none
    else do
      let entry0 ← getItem entry (.vNum 0)
      let topic ←
        match entry0 with
        | .vStr t => pure ("owntracks/user/" ++ t)
        | _ => .error "TypeError"
      let _payload ← jsonDumps message
      let _topic := topic
      pure (some packet)

/-- The `OwntracksPlugin.do_action` (lines 343-417): build the Owntracks
location message from a radio or broker position packet and publish it;
a packet with no usable position passes through unchanged. -/
def OwntracksPlugin.do_action (mqtt_servers config packet : Val) :
    Except String (Option Val) := do
  let hasTid ← keyMem "tid_table" config
  if !hasTid then pure (some packet)
  else do
    let hasSrv ← keyMem "server_name" config
    if !hasSrv then pure (some packet)
    else do
      let tid_table ← dictGet config "tid_table"
      let hasFrom ← keyMem "from" packet
      if !hasFrom then pure (some packet)
      else do
        let fromv ← dictGet packet "from"
        let inTable ← valMemV (.vStr (pyStr fromv)) tid_table
        if !inTable then pure (some packet)
        else do
          let from_str := pyStr fromv
          let message0 : Val :=
            .vDict (.cons "_type" (.vStr "location") (.cons "bs" (.vNum 0) .nil))
          let entry ← getItem tid_table (.vStr from_str)
          let tidv ← getItem entry (.vNum 1)
          let message1 ← setItem message0 "tid" tidv
          let b1 ← keyMem "decoded" packet
          let radioBranch ←
            if b1 then do
              let dec ← dictGet packet "decoded"
              let b2 ← keyMem "position" dec
              if b2 then do
                let pos ← dictGet dec "position"
                let b3 ← keyMem "latitude" pos
                if b3 then do
                  let la ← dictGet pos "latitude"
                  pure (if pyNeZero la then some pos else none)
                else pure none
              else pure none
            else pure none
          let message2 ←
            match radioBranch with
            | some pos => do
                let la ← dictGet pos "latitude"
                let lo ← dictGet pos "longitude"
                let tm ← dictGet pos "time"
                let rx ← dictGet packet "rxTime"
                let m1 ← setItem message1 "lat" la
                let m2 ← setItem m1 "lon" lo
                let m3 ← setItem m2 "tst" tm
                let m4 ← setItem m3 "created_at" rx
                let hasAlt ← keyMem "altitude" pos
                if hasAlt then do
                  let al ← dictGet pos "altitude"
                  let m5 ← setItem m4 "alt" al
                  pure (some m5)
                else pure (some m4)
            | none => do
                let bt ← keyMem "type" packet
                let mqttBranch ←
                  if bt then do
                    let tv ← dictGet packet "type"
                    if tv = .vStr "position" then do
                      let bp ← keyMem "payload" packet
                      if bp then do
                        let payload ← dictGet packet "payload"
                        let bl ← keyMem "latitude_i" payload
                        if bl then do
                          let li ← dictGet payload "latitude_i"
                          pure (if pyNeZero li then some payload else none)
                        else pure none
                      else pure none
                    else pure none
                  else pure none
                match mqttBranch with
                | some payload => do
                    let li ← toNum (← dictGet payload "latitude_i")
                    let lo ← toNum (← dictGet payload "longitude_i")
                    let ts ← dictGet packet "timestamp"
                    let m1 ← setItem message1 "lat" (.vNum (li / 10000000))
                    let m2 ← setItem m1 "lon" (.vNum (lo / 10000000))
                    let m3 ← setItem m2 "tst" ts
                    let hasTime ← keyMem "time" payload
                    let m4 ←
                      if hasTime then do
                        let tv ← dictGet payload "time"
                        setItem m3 "created_at" tv
                      else setItem m3 "created_at" ts
                    let hasAlt ← keyMem "altitude" payload
                    if hasAlt then do
                      let al ← dictGet payload "altitude"
                      let m5 ← setItem m4 "alt" al
                      pure (some m5)
                    else pure (some m4)
                | none => pure none
          match message2 with
          | some msg => OwntracksPlugin.publishPart mqtt_servers config entry msg packet
          | none => pure (some packet)

/-! ## AprsPlugin telemetry encoding (plugins.py lines 559-569) -/

/-- The `AprsPlugin.base91_encode`: two ASCII characters
`chr(value // 91 + 33)`, `chr(value % 91 + 33)`. -/
def AprsPlugin.base91_encode (value : Nat) : String :=
  let d1 := value / 91
  let d2 := value % 91
  String.mk [Char.ofNat (d1 + 33), Char.ofNat (d2 + 33)]

/-- The `AprsPlugin.encode_igate_telemetry`: advance the telemetry sequence
counter `(seq + 1) % 1000` and emit the pipe-delimited base-91 encoding of
the sequence number followed by the telemetry values.  The counter is the
plugin state threaded explicitly; it starts at `-1` at process startup. -/
def AprsPlugin.encode_igate_telemetry (telemetry_seq : Int) (values : List Nat) :
    Int × String :=
  let seq := (telemetry_seq + 1) % 1000
  (seq, "|" ++ String.join ((seq.toNat :: values).map AprsPlugin.base91_encode) ++ "|")

/-- Decoding of a two-character base-91 pair,
`(ord(c1) - 33) * 91 + (ord(c2) - 33)`, as the claim and the APRS
telemetry specification define it (the repository emits only; receivers
decode). -/
def base91_decodePair (s : String) : Nat :=
  match s.data with
  | [c1, c2] => (c1.toNat - 33) * 91 + (c2.toNat - 33)
  | _ => 0

/-! ## EncryptFilter / DecryptFilter (plugins.py lines 590-649)

The jwcrypto library and the key file on disk are external collaborators:
`enc` is the composite of loading the configured public key and producing
the serialized JWE envelope of a given plaintext (lines 600-616 and 619),
`dec` the composite of loading the private key and recovering the payload
of a serialized envelope (lines 638-643), which raises on a malformed
envelope or wrong key.  `ser`/`deser` are the JSON module's
`dumps`/`loads` as the stages use them on packets. -/

/-- The `EncryptFilter.do_action` (lines 593-619): no configured key drops the
packet; otherwise the packet is serialized and enveloped, the debug log's
f-string evaluates `packet["id"]` (KeyError on a packet without `id`), and
the serialized envelope text replaces the packet. -/
def EncryptFilter.do_action (ser : Val → Except String String)
    (enc : String → String) (config packet : Val) : Except String (Option Val) := do
  let hasKey ← keyMem "key" config
  if !hasKey then pure none
  else do
    let message ← ser packet
    let token := enc message
    let _id ← dictGet packet "id"
    pure (some (.vStr token))

/-- The `DecryptFilter.do_action` (lines 628-646): no configured key or a
non-string packet passes through unchanged; otherwise the envelope is
opened, the payload parsed back into a packet, and the debug log's
f-string evaluates `packet["id"]`. -/
def DecryptFilter.do_action (deser : String → Except String Val)
    (dec : String → Except String String) (config packet : Val) :
    Except String (Option Val) := do
  let hasKey ← keyMem "key" config
  if !hasKey then pure (some packet)
  else
    match packet with
    | .vStr s => do
        let payload ← dec s
        let pk ← deser payload
        let _id ← dictGet pk "id"
        pure (some pk)
    | _ => pure (some packet)

/-! ## WebhookPlugin (plugins.py lines 245-298)

The HTTP client is the external parameter `post` (url, headers, payload to
the `ok` flag of the response); `env` is the process environment
`os.environ.items()`.  `do_action` returns the stage result together with
the configuration mapping as it stands afterwards: line 288 writes
substituted header values back through `headers[k] = v`, and when the
`headers` dict comes from the configuration (line 281) that write mutates
the configuration in place. -/

/-- Substitute every `\x7bNAME\x7d` environment placeholder occurring in a
string, in environment iteration order (the inner loop of lines 283-286). -/
def envSubst (env : List (String × String)) (v : String) : String :=
  env.foldl
    (fun s p =>
      let needle := "\x7b" ++ p.1 ++ "\x7d"
      if pyContains s needle then pyReplace s needle p.2 else s)
    v

/-- The header loop of lines 282-288 over the original header entries:
each value is env-substituted and written back into the headers dict.
`needle in v` raises TypeError on a non-string value when the environment
is non-empty. -/
def WebhookPlugin.headersLoop (env : List (String × String)) :
    ValD → ValD → Except String ValD
  | .nil, h => .ok h
  | .cons k v rest, h =>
      match v with
      | .vStr s => WebhookPlugin.headersLoop env rest (setKV h k (.vStr (envSubst env s)))
      | _ =>
          if env.isEmpty then WebhookPlugin.headersLoop env rest (setKV h k v)
          else .error "TypeError"

/-- The `\x7bLAT\x7d`/`\x7bLNG\x7d`/`\x7bMSG\x7d`/`\x7bFID\x7d`/`\x7bTID\x7d`
placeholder substitution into the configured body (lines 258-274). -/
def WebhookPlugin.buildBody (config packet : Val) : Except String String := do
  let dec ← dictGet packet "decoded"
  let hasPos ← keyMem "position" dec
  let position ← if hasPos then dictGet dec "position" else pure .vNull
  let hasText ← keyMem "text" dec
  let text ← if hasText then dictGet dec "text" else pure .vNull
  let latv ← if pyTruthy position then dictGet position "latitude" else pure (.vStr "")
  let lngv ← if pyTruthy position then dictGet position "longitude" else pure (.vStr "")
  let hasMsg ← keyMem "message" config
  let msgv ← if hasMsg then dictGet config "message" else pure text
  let fidv ← dictGet packet "fromId"
  let tidv ← dictGet packet "toId"
  let bodyv ← dictGet config "body"
  match bodyv with
  | .vStr body =>
      let b1 := pyReplace body "\x7bLAT\x7d" (pyStr latv)
      let b2 := pyReplace b1 "\x7bLNG\x7d" (pyStr lngv)
      let b3 := pyReplace b2 "\x7bMSG\x7d" (pyStr msgv)
      let b4 := pyReplace b3 "\x7bFID\x7d" (pyStr fidv)
      pure (pyReplace b4 "\x7bTID\x7d" (pyStr tidv))
  | _ => .error "AttributeError"

/-- The `WebhookPlugin.do_action` (lines 248-295), with the configuration
mapping as it stands afterwards as second component. -/
def WebhookPlugin.do_action (post : String → ValD → Val → Bool)
    (env : List (String × String)) (config packet : Val) :
    Except String (Option Val) × Val :=
  match (do
    let hasActive ← keyMem "active" config
    let inactive ←
      if hasActive then do
        let av ← dictGet config "active"
        pure (!pyTruthy av)
      else pure false
    pure inactive : Except String Bool) with
  | .error e => (.error e, config)
  | .ok true => (.ok (some packet), config)
  | .ok false =>
    match keyMem "body" config with
    | .error e => (.error e, config)
    | .ok false => (.ok (some packet), config)
    | .ok true =>
      match (do
        let body ← WebhookPlugin.buildBody config packet
        let payload ← jsonLoads (.vStr body)
        let url ← dictGet config "url"
        pure (payload, url) : Except String (Val × Val)) with
      | .error e => (.error e, config)
      | .ok (payload, url) =>
        match keyMem "headers" config with
        | .error e => (.error e, config)
        | .ok hasHeaders =>
          let headers0 : Except String ValD :=
            if hasHeaders then
              match dictGet config "headers" with
              | .ok (.vDict h) => .ok h
              | .ok _ => .error "AttributeError"
              | .error e => .error e
            else .ok .nil
          match headers0 with
          | .error e => (.error e, config)
          | .ok h =>
            match WebhookPlugin.headersLoop env h h with
            | .error e =>
                (.error e, config)
            | .ok h2 =>
              let config2 :=
                if hasHeaders then
                  match config with
                  | .vDict kvs => Val.vDict (setKV kvs "headers" (.vDict h2))
                  | _ => config
                else config
              match url with
              | .vStr u =>
                  let _ok := post u h2 payload
                  (.ok (some packet), config2)
              | _ => (.error "TypeError-url", config2)

/-! ## NoStrPlugin (plugins.py lines 733-795)

Relay-manager connection handling, sleeping, key parsing and event signing
are external effects/collaborators (`parseNsec`/`parseNpub` stand for
`PrivateKey.from_nsec`/`PublicKey.from_npub`, raising on malformed keys).
`do_action` returns the stage result together with the configuration
mapping as it stands afterwards: lines 764-769 assign the env-substituted
private key back into `self.config["private_key"]`. -/

/-- The environment loop of lines 764-769: for each environment variable
whose `\x7bNAME\x7d` placeholder occurs in `config["private_key"]`, the
substituted value is written back into the configuration. -/
def NoStrPlugin.envLoop : List (String × String) → Val → Except String Val
  | [], config => .ok config
  | (ek, ev) :: rest, config => do
      let cur ← dictGet config "private_key"
      match cur with
      | .vStr s =>
          let needle := "\x7b" ++ ek ++ "\x7d"
          if pyContains s needle then do
            let config2 ← setItem config "private_key" (.vStr (pyReplace s needle ev))
            NoStrPlugin.envLoop rest config2
          else NoStrPlugin.envLoop rest config
      | _ => .error "TypeError"

/-- Lines 745-747: reading the extra relays from the configuration (the
iteration raises on a non-iterable value). -/
def NoStrPlugin.relaysPart (config : Val) : Except String Unit := do
  let hasRelays ← keyMem "relays" config
  if hasRelays then do
    let rv ← dictGet config "relays"
    let _relays ← toIter rv
    pure ()
  else pure ()

/-- Lines 771-784: parse the keys from the (already env-substituted)
configuration, build the message and sign/publish the event. -/
def NoStrPlugin.signPart (parseNsec parseNpub : String → Except String String)
    (config2 packet : Val) : Except String Unit := do
  let pkv ← dictGet config2 "private_key"
  let pbv ← dictGet config2 "public_key"
  match pkv, pbv with
  | .vStr pk, .vStr pb => do
      let _sk ← parseNsec pk
      let pubHex ← parseNpub pb
      let hasMsg ← keyMem "message" config2
      let message ←
        if hasMsg then do
          let mv ← dictGet config2 "message"
          let dec ← dictGet packet "decoded"
          let tv ← dictGet dec "text"
          match mv, tv with
          | .vStr ms, .vStr ts => pure (pyReplace ms "\x7bMSG\x7d" ts)
          | _, _ => .error "TypeError"
        else do
          let dec ← dictGet packet "decoded"
          let tv ← dictGet dec "text"
          match tv with
          | .vStr ts => pure ts
          | _ => pure (pyStr tv)
      let _event := (message, pubHex)
      pure ()
  | _, _ => .error "TypeError"

/-- The body of `NoStrPlugin.do_action` after the config checks (lines
744-792), threading the configuration state. -/
def NoStrPlugin.mainPart (env : List (String × String))
    (parseNsec parseNpub : String → Except String String)
    (config packet : Val) : Except String (Option Val) × Val :=
  match NoStrPlugin.relaysPart config with
  | .error e => (.error e, config)
  | .ok () =>
    match NoStrPlugin.envLoop env config with
    | .error e => (.error e, config)
    | .ok config2 =>
      match NoStrPlugin.signPart parseNsec parseNpub config2 packet with
      | .error e => (.error e, config2)
      | .ok () => (.ok (some packet), config2)

/-- The `NoStrPlugin.do_action` (lines 736-792), with the configuration mapping
as it stands afterwards as second component: missing `private_key` or
`public_key` configuration passes the packet through untouched; otherwise
the environment substitution runs (mutating the configuration), the keys
are parsed, and the message is signed and published. -/
def NoStrPlugin.do_action (env : List (String × String))
    (parseNsec parseNpub : String → Except String String)
    (config packet : Val) : Except String (Option Val) × Val :=
  match keyMem "private_key" config with
  | .error e => (.error e, config)
  | .ok false => (.ok (some packet), config)
  | .ok true =>
    match keyMem "public_key" config with
    | .error e => (.error e, config)
    | .ok false => (.ok (some packet), config)
    | .ok true => NoStrPlugin.mainPart env parseNsec parseNpub config packet

/-! ## Predicates for the normalization claims -/

mutual
/-- No `raw` key at any dict position reachable through nested dicts (the
positions `strip_raw` visits; dicts inside lists are not visited). -/
def rawFreeDictPath : Val → Bool
  | .vDict kvs => rawFreeDictPathD kvs
  | _ => true
/-- The `rawFreeDictPath` over dict entries. -/
def rawFreeDictPathD : ValD → Bool
  | .nil => true
  | .cons k v rest => !(k == "raw") && rawFreeDictPath v && rawFreeDictPathD rest
end

mutual
/-- The property stated by the claim: no key named `raw` at any nesting depth,
including mappings nested inside sequences. -/
def specRawFreeAllDepths : Val → Bool
  | .vDict kvs => specRawFreeAllDepthsD kvs
  | .vList l => specRawFreeAllDepthsS l
  | _ => true
/-- The `specRawFreeAllDepths` over list elements. -/
def specRawFreeAllDepthsS : ValS → Bool
  | .nil => true
  | .cons v rest => specRawFreeAllDepths v && specRawFreeAllDepthsS rest
/-- The `specRawFreeAllDepths` over dict entries. -/
def specRawFreeAllDepthsD : ValD → Bool
  | .nil => true
  | .cons k v rest =>
      !(k == "raw") && specRawFreeAllDepths v && specRawFreeAllDepthsD rest
end

/-! ## Concrete configurations used by the claim statements -/

/-- An attribute filter entry whose `allow` and `disallow` lists are both
empty. -/
def emptyAttrEntry : Val :=
  .vDict (.cons "allow" (.vList .nil) (.cons "disallow" (.vList .nil) .nil))

/-- A message-filter configuration in which every configured list (message
`disallow`, and `allow`/`disallow` for each of `app`, `from`, `to`) is
empty. -/
def emptyListsConfig : Val :=
  .vDict (.cons "message" (.vDict (.cons "disallow" (.vList .nil) .nil))
    (.cons "app" emptyAttrEntry
      (.cons "from" emptyAttrEntry
        (.cons "to" emptyAttrEntry .nil))))

/-- A message-filter configuration whose only entry is an empty message
`allow` list. -/
def emptyAllowConfig : Val :=
  .vDict (.cons "message" (.vDict (.cons "allow" (.vList .nil) .nil)) .nil)

/-! ## Supporting lemmas -/

/-- Bind on a successful `Except` computation. -/
@[simp] theorem ebind_ok {α β : Type} (a : α) (f : α → Except String β) :
    (Except.ok a >>= f) = f a := rfl

/-- Bind on a failed `Except` computation. -/
@[simp] theorem ebind_err {α β : Type} (e : String) (f : α → Except String β) :
    ((Except.error e : Except String α) >>= f) = Except.error e := rfl

/-- The `pure` into `Except`. -/
@[simp] theorem epure_eq {α : Type} (a : α) :
    (pure a : Except String α) = Except.ok a := rfl

/-- Looking up the key just set yields the new value. -/
theorem getKV_setKV_self : (kvs : ValD) → (k : String) → (x : Val) →
    getKV (setKV kvs k x) k = some x
  | .nil, k, x => by simp [setKV, getKV]
  | .cons k2 v rest, k, x => by
      by_cases h : k2 = k
      · simp [setKV, h, getKV]
      · simp [setKV, h, getKV, getKV_setKV_self rest k x]

/-- Looking up a different key after a set is unchanged. -/
theorem getKV_setKV_ne : (kvs : ValD) → (k k2 : String) → (x : Val) →
    k2 ≠ k → getKV (setKV kvs k x) k2 = getKV kvs k2
  | .nil, k, k2, x, h => by simp [setKV, getKV, Ne.symm h]
  | .cons k3 v rest, k, k2, x, h => by
      by_cases h3 : k3 = k
      · subst h3
        simp [setKV, getKV, Ne.symm h]
      · simp [setKV, h3, getKV, getKV_setKV_ne rest k k2 x h]

/-- Setting the same key twice keeps only the second value. -/
theorem setKV_setKV : (kvs : ValD) → (k : String) → (x y : Val) →
    setKV (setKV kvs k x) k y = setKV kvs k y
  | .nil, k, x, y => by simp [setKV]
  | .cons k2 v rest, k, x, y => by
      by_cases h : k2 = k
      · simp [setKV, h]
      · simp [setKV, h, setKV_setKV rest k x y]

/-- Writing back the value a key already has leaves the dict unchanged. -/
theorem setKV_getKV_self : (kvs : ValD) → (k : String) → (v : Val) →
    getKV kvs k = some v → setKV kvs k v = kvs
  | .nil, k, v, h => by simp [getKV] at h
  | .cons k2 v2 rest, k, v, h => by
      by_cases h2 : k2 = k
      · subst h2
        simp [getKV] at h
        simp [setKV, h]
      · simp [getKV, h2] at h
        simp [setKV, h2, setKV_getKV_self rest k v h]

/-- A key with a binding is a member. -/
theorem anyKeyEq_of_getKV : (kvs : ValD) → (k : String) → (v : Val) →
    getKV kvs k = some v → ValD.anyKeyEq kvs (.vStr k) = true
  | .nil, k, v, h => by simp [getKV] at h
  | .cons k2 v2 rest, k, v, h => by
      by_cases h2 : k2 = k
      · simp [ValD.anyKeyEq, h2]
      · simp [getKV, h2] at h
        simp [ValD.anyKeyEq, anyKeyEq_of_getKV rest k v h]

/-- The `Char.toNat` after `Char.ofNat` of a small scalar value. -/
theorem toNat_ofNat_small {n : Nat} (h : n < 55296) : (Char.ofNat n).toNat = n := by
  rw [Char.ofNat, dif_pos (Or.inl h)]
  rfl

mutual
/-- The `strip_raw` is idempotent. -/
theorem strip_raw_idem : (v : Val) →
    PacketFilter.strip_raw (PacketFilter.strip_raw v) = PacketFilter.strip_raw v
  | .vStr _ => rfl
  | .vNum _ => rfl
  | .vBool _ => rfl
  | .vNull => rfl
  | .vBytes _ => rfl
  | .vList _ => rfl
  | .vDict kvs => by
      simp [PacketFilter.strip_raw, stripRawD_idem kvs]
/-- The `strip_raw` over dict entries is idempotent. -/
theorem stripRawD_idem : (l : ValD) →
    PacketFilter.stripRawD (PacketFilter.stripRawD l) = PacketFilter.stripRawD l
  | .nil => rfl
  | .cons k v rest => by
      by_cases h : k = "raw"
      · simp [PacketFilter.stripRawD, h, stripRawD_idem rest]
      · simp [PacketFilter.stripRawD, h, strip_raw_idem v, stripRawD_idem rest]
end

mutual
/-- The `strip_raw` leaves no `raw` key at any dict position reachable through
nested dicts. -/
theorem rawFreeDictPath_strip : (v : Val) →
    rawFreeDictPath (PacketFilter.strip_raw v) = true
  | .vStr _ => rfl
  | .vNum _ => rfl
  | .vBool _ => rfl
  | .vNull => rfl
  | .vBytes _ => rfl
  | .vList _ => rfl
  | .vDict kvs => by
      simp [PacketFilter.strip_raw, rawFreeDictPath, rawFreeDictPathD_strip kvs]
/-- The `strip_raw` over dict entries leaves no reachable `raw` key. -/
theorem rawFreeDictPathD_strip : (l : ValD) →
    rawFreeDictPathD (PacketFilter.stripRawD l) = true
  | .nil => rfl
  | .cons k v rest => by
      by_cases h : k = "raw"
      · simp [PacketFilter.stripRawD, h, rawFreeDictPathD_strip rest]
      · simp [PacketFilter.stripRawD, h, rawFreeDictPathD, rawFreeDictPath_strip v,
              rawFreeDictPathD_strip rest, h]
end

/-- Every branch of `normalize` ends in `strip_raw`. -/
theorem normalize_eq_strip (p : Val) :
    ∃ x, PacketFilter.normalize p = PacketFilter.strip_raw x := by
  unfold PacketFilter.normalize
  match p with
  | .vDict kvs => exact ⟨.vDict kvs, rfl⟩
  | .vStr s =>
      cases h : jsonLoads (.vStr s) with
      | ok v => exact ⟨v, by simp [h]⟩
      | error e =>
          exact ⟨.vDict (.cons "decoded" (.vDict (.cons "text" (.vStr s) .nil)) .nil),
                 by simp [h]⟩
  | .vNum _ | .vBool _ | .vNull | .vBytes _ | .vList _ =>
      simp [jsonLoads]

/-! ## Claim theorems -/

/-- C1 (amended): `normalize` always strips every `raw` key at every dict
position reachable through nested dicts (dicts inside sequences are not
visited), and `normalize(normalize(p)) = normalize(p)` whenever
`normalize(p)` is a mapping; idempotence can fail when the input is
serialized text of a non-mapping JSON value. -/
theorem normalize_rawfree_and_idem_on_mappings :
    (∀ p : Val, rawFreeDictPath (PacketFilter.normalize p) = true) ∧
    (∀ (p : Val) (kvs : ValD), PacketFilter.normalize p = .vDict kvs →
      PacketFilter.normalize (PacketFilter.normalize p) = PacketFilter.normalize p) := by
  constructor
  · intro p
    obtain ⟨x, hx⟩ := normalize_eq_strip p
    rw [hx]
    exact rawFreeDictPath_strip x
  · intro p kvs h
    obtain ⟨x, hx⟩ := normalize_eq_strip p
    have hdk : PacketFilter.strip_raw x = Val.vDict kvs := hx.symm.trans h
    rw [h]
    calc PacketFilter.normalize (.vDict kvs)
        = PacketFilter.strip_raw (.vDict kvs) := rfl
      _ = PacketFilter.strip_raw (PacketFilter.strip_raw x) := by rw [hdk]
      _ = PacketFilter.strip_raw x := strip_raw_idem x
      _ = .vDict kvs := hdk

/-- Witness for C1 (amended) at a concrete mapping with a `raw` key. -/
theorem normalize_rawfree_and_idem_witness :
    rawFreeDictPath (PacketFilter.normalize (.vDict (.cons "raw" (.vNum 1) .nil))) = true ∧
    PacketFilter.normalize
        (PacketFilter.normalize (.vDict (.cons "raw" (.vNum 1) .nil))) =
      PacketFilter.normalize (.vDict (.cons "raw" (.vNum 1) .nil)) :=
  ⟨normalize_rawfree_and_idem_on_mappings.1 (.vDict (.cons "raw" (.vNum 1) .nil)),
   normalize_rawfree_and_idem_on_mappings.2 (.vDict (.cons "raw" (.vNum 1) .nil)) .nil
     (by decide)⟩

/-- C1 counterexample: the serialized-text input `"5"` parses to the
non-mapping value 5, on which normalization is not idempotent; and a `raw`
key inside a mapping nested in a sequence survives normalization. -/
theorem normalize_claim_counterexample :
    PacketFilter.normalize (PacketFilter.normalize (.vStr "5")) ≠
      PacketFilter.normalize (.vStr "5") ∧
    specRawFreeAllDepths
      (PacketFilter.normalize
        (.vDict (.cons "a"
          (.vList (.cons (.vDict (.cons "raw" (.vNum 1) .nil)) .nil)) .nil))) = false := by
  decide

/-- C2 (amended): the Decrypt stage inverts the Encrypt stage for every
packet that carries an `id` key, serializes, and round-trips through the
configured key pair; the debug logging of the stages dereferences `packet["id"]`,
so a packet without `id` raises instead of round-tripping. -/
theorem crypto_roundtrip_with_id (ser : Val → Except String String)
    (enc : String → String) (dec : String → Except String String)
    (deser : String → Except String Val) (ecfg dcfg p : Val) (s : String) (i : Val)
    (hek : keyMem "key" ecfg = .ok true) (hdk : keyMem "key" dcfg = .ok true)
    (hser : ser p = .ok s) (hdec : dec (enc s) = .ok s)
    (hdeser : deser s = .ok p) (hid : dictGet p "id" = .ok i) :
    EncryptFilter.do_action ser enc ecfg p = .ok (some (.vStr (enc s))) ∧
    DecryptFilter.do_action deser dec dcfg (.vStr (enc s)) = .ok (some p) := by
  constructor
  · simp [EncryptFilter.do_action, hek, hser, hid]
  · simp [DecryptFilter.do_action, hdk, hdec, hdeser, hid]

/-- Witness for C2 (amended) with a concrete packet, serializer and
envelope pair. -/
theorem crypto_roundtrip_with_id_witness :
    EncryptFilter.do_action (fun _ => .ok "P") (fun s => s)
        (.vDict (.cons "key" (.vStr "k.pem") .nil))
        (.vDict (.cons "id" (.vNum 1) .nil)) = .ok (some (.vStr "P")) ∧
    DecryptFilter.do_action (fun _ => .ok (.vDict (.cons "id" (.vNum 1) .nil)))
        (fun s => .ok s) (.vDict (.cons "key" (.vStr "k.pem") .nil)) (.vStr "P")
      = .ok (some (.vDict (.cons "id" (.vNum 1) .nil))) :=
  crypto_roundtrip_with_id (fun _ => .ok "P") (fun s => s) (fun s => .ok s)
    (fun _ => .ok (.vDict (.cons "id" (.vNum 1) .nil)))
    (.vDict (.cons "key" (.vStr "k.pem") .nil))
    (.vDict (.cons "key" (.vStr "k.pem") .nil))
    (.vDict (.cons "id" (.vNum 1) .nil)) "P" (.vNum 1)
    (by decide) (by decide) rfl rfl rfl (by decide)

/-- C2 counterexample: with a key configured and the JSON serializer, the
Encrypt stage raises KeyError on the packet `\x7b\x7d` (no `id` key), so
`decrypt(encrypt(p)) = p` fails for that packet. -/
theorem crypto_roundtrip_counterexample :
    EncryptFilter.do_action jsonDumps (fun s => s)
      (.vDict (.cons "key" (.vStr "key.pem") .nil)) (.vDict .nil)
      = .error "KeyError" := by
  decide

/-- C3: the Encrypt stage with no `key` configuration entry drops the
packet (fail closed); the Decrypt stage with no `key` entry, or applied to
a non-string packet, returns its input unchanged (fail open). -/
theorem crypto_key_gating :
    (∀ (ser : Val → Except String String) (enc : String → String) (config p : Val),
      keyMem "key" config = .ok false →
      EncryptFilter.do_action ser enc config p = .ok none) ∧
    (∀ (deser : String → Except String Val) (dec : String → Except String String)
        (config p : Val),
      keyMem "key" config = .ok false →
      DecryptFilter.do_action deser dec config p = .ok (some p)) ∧
    (∀ (deser : String → Except String Val) (dec : String → Except String String)
        (config p : Val),
      keyMem "key" config = .ok true → (∀ s : String, p ≠ .vStr s) →
      DecryptFilter.do_action deser dec config p = .ok (some p)) := by
  refine ⟨?_, ?_, ?_⟩
  · intro ser enc config p h
    simp [EncryptFilter.do_action, h]
  · intro deser dec config p h
    simp [DecryptFilter.do_action, h]
  · intro deser dec config p h hs
    match p, hs with
    | .vNum q, _ => simp [DecryptFilter.do_action, h]
    | .vBool b, _ => simp [DecryptFilter.do_action, h]
    | .vNull, _ => simp [DecryptFilter.do_action, h]
    | .vBytes bs, _ => simp [DecryptFilter.do_action, h]
    | .vList l, _ => simp [DecryptFilter.do_action, h]
    | .vDict kvs, _ => simp [DecryptFilter.do_action, h]
    | .vStr s, hs => exact absurd rfl (hs s)

/-- Witness for C3 at concrete configurations and packets. -/
theorem crypto_key_gating_witness :
    EncryptFilter.do_action (fun _ => .ok "P") (fun s => s) (.vDict .nil)
        (.vDict .nil) = .ok none ∧
    DecryptFilter.do_action (fun _ => .ok .vNull) (fun s => .ok s) (.vDict .nil)
        (.vStr "x") = .ok (some (.vStr "x")) ∧
    DecryptFilter.do_action (fun _ => .ok .vNull) (fun s => .ok s)
        (.vDict (.cons "key" (.vStr "k.pem") .nil)) (.vDict .nil)
      = .ok (some (.vDict .nil)) :=
  ⟨crypto_key_gating.1 (fun _ => .ok "P") (fun s => s) (.vDict .nil) (.vDict .nil)
     (by decide),
   crypto_key_gating.2.1 (fun _ => .ok .vNull) (fun s => .ok s) (.vDict .nil)
     (.vStr "x") (by decide),
   crypto_key_gating.2.2 (fun _ => .ok .vNull) (fun s => .ok s)
     (.vDict (.cons "key" (.vStr "k.pem") .nil)) (.vDict .nil) (by decide)
     (fun s => by simp)⟩

/-- C9: decoding the two-character base-91 pair recovers every value in the
0-8280 range, and the telemetry sequence counter starts at 0 on the first
invocation after startup (state -1), increases by exactly 1 on each
successive encoding, and wraps from 999 back to 0. -/
theorem aprs_telemetry_encoding :
    (∀ v : Nat, v ≤ 8280 → base91_decodePair (AprsPlugin.base91_encode v) = v) ∧
    (∀ values : List Nat, (AprsPlugin.encode_igate_telemetry (-1) values).1 = 0) ∧
    (∀ (s : Int) (values : List Nat), 0 ≤ s → s < 999 →
      (AprsPlugin.encode_igate_telemetry s values).1 = s + 1) ∧
    (∀ values : List Nat, (AprsPlugin.encode_igate_telemetry 999 values).1 = 0) := by
  refine ⟨?_, ?_, ?_, ?_⟩
  · intro v hv
    have h1 : v / 91 + 33 < 55296 := by omega
    have h2 : v % 91 + 33 < 55296 := by omega
    simp [AprsPlugin.base91_encode, base91_decodePair, String.mk,
          toNat_ofNat_small h1, toNat_ofNat_small h2]
    omega
  · intro values
    simp [AprsPlugin.encode_igate_telemetry]
  · intro s values h0 h999
    simp only [AprsPlugin.encode_igate_telemetry]
    omega
  · intro values
    simp [AprsPlugin.encode_igate_telemetry]

/-- Witness for C9 at a concrete telemetry value and sequence states. -/
theorem aprs_telemetry_encoding_witness :
    base91_decodePair (AprsPlugin.base91_encode 4242) = 4242 ∧
    (AprsPlugin.encode_igate_telemetry 5 [1, 2]).1 = 6 :=
  ⟨aprs_telemetry_encoding.1 4242 (by decide),
   aprs_telemetry_encoding.2.2.1 5 [1, 2] (by decide) (by decide)⟩


/-- C4 (amended): an empty attribute `allow`/`disallow` list and an empty
message `disallow` list impose no constraint (empty lists are falsy), but
an empty message `allow` list drops every packet with truthy text, because
the message-allow branch tests only key presence, not emptiness. -/
theorem empty_list_filter_behavior :
    (∀ (research : String → String → Bool) (p dec tv av fv tov : Val),
      pyTruthy p = true →
      dictGet p "decoded" = .ok dec →
      keyMem "text" dec = .ok true →
      dictGet dec "text" = .ok tv →
      pyTruthy tv = true →
      dictGet dec "portnum" = .ok av →
      dictGet p "fromId" = .ok fv →
      dictGet p "toId" = .ok tov →
      MessageFilter.do_action research emptyListsConfig (some p) = .ok (some p)) ∧
    (∀ (research : String → String → Bool) (p dec tv : Val),
      pyTruthy p = true →
      dictGet p "decoded" = .ok dec →
      keyMem "text" dec = .ok true →
      dictGet dec "text" = .ok tv →
      pyTruthy tv = true →
      MessageFilter.do_action research emptyAllowConfig (some p) = .ok none) := by
  constructor
  · intro research p dec tv av fv tov hp hdec htm htv htvt hport hfrom hto
    have e1 : keyMem "message" emptyListsConfig = .ok true := rfl
    have e2 : MessageFilter.msgSection research emptyListsConfig tv = .ok false := rfl
    have e3 : ∀ value : Val,
        MessageFilter.attrCheck emptyListsConfig "app" value = .ok false := fun _ => rfl
    have e4 : ∀ value : Val,
        MessageFilter.attrCheck emptyListsConfig "from" value = .ok false := fun _ => rfl
    have e5 : ∀ value : Val,
        MessageFilter.attrCheck emptyListsConfig "to" value = .ok false := fun _ => rfl
    simp [MessageFilter.do_action, MessageFilter.attrSection,
          hp, hdec, htm, htv, htvt, hport, hfrom, hto, e1, e2, e3, e4, e5]
  · intro research p dec tv hp hdec htm htv htvt
    have e1 : keyMem "message" emptyAllowConfig = .ok true := rfl
    have e2 : MessageFilter.msgSection research emptyAllowConfig tv = .ok true := rfl
    simp [MessageFilter.do_action, hp, hdec, htm, htv, htvt, e1, e2]

/-- Witness for C4 (amended) at a concrete packet. -/
theorem empty_list_filter_behavior_witness :
    MessageFilter.do_action (fun _ _ => false) emptyListsConfig
        (some (.vDict (.cons "decoded"
          (.vDict (.cons "text" (.vStr "hi") (.cons "portnum" (.vStr "T") .nil)))
          (.cons "fromId" (.vStr "!a") (.cons "toId" (.vStr "!b") .nil)))))
      = .ok (some (.vDict (.cons "decoded"
          (.vDict (.cons "text" (.vStr "hi") (.cons "portnum" (.vStr "T") .nil)))
          (.cons "fromId" (.vStr "!a") (.cons "toId" (.vStr "!b") .nil))))) :=
  empty_list_filter_behavior.1 (fun _ _ => false)
    (.vDict (.cons "decoded"
      (.vDict (.cons "text" (.vStr "hi") (.cons "portnum" (.vStr "T") .nil)))
      (.cons "fromId" (.vStr "!a") (.cons "toId" (.vStr "!b") .nil))))
    (.vDict (.cons "text" (.vStr "hi") (.cons "portnum" (.vStr "T") .nil)))
    (.vStr "hi") (.vStr "T") (.vStr "!a") (.vStr "!b")
    (by decide) (by decide) (by decide) (by decide) (by decide) (by decide)
    (by decide) (by decide)

/-- C4 counterexample: a packet with text matching no pattern of an empty
`message.allow` list is dropped (the stage returns the no-value marker),
against the claim that an empty allow list never drops on that basis. -/
theorem empty_allow_list_drops_counterexample :
    MessageFilter.do_action (fun _ _ => true) emptyAllowConfig
        (some (.vDict (.cons "decoded"
          (.vDict (.cons "text" (.vStr "hi") (.cons "portnum" (.vStr "T") .nil)))
          (.cons "fromId" (.vStr "!a") (.cons "toId" (.vStr "!b") .nil)))))
      = .ok none := by
  decide

/-- C5 (amended): a packet lacking `decoded.text` is handled by the message
filter without an exception when its attribute fields are present and no
attribute rules are configured, and a packet lacking a resolvable position
passes the geofence filter untouched when no masking is configured; but a
packet lacking `decoded.portnum`, `fromId` or `toId` makes the message
filter raise KeyError (the attribute values are built unconditionally). -/
theorem missing_fields_behavior :
    (∀ (research : String → String → Bool) (config p dec av fv tov : Val),
      pyTruthy p = true →
      dictGet p "decoded" = .ok dec →
      keyMem "text" dec = .ok false →
      dictGet dec "portnum" = .ok av →
      dictGet p "fromId" = .ok fv →
      dictGet p "toId" = .ok tov →
      keyMem "app" config = .ok false →
      keyMem "from" config = .ok false →
      keyMem "to" config = .ok false →
      MessageFilter.do_action research config (some p) = .ok (some p)) ∧
    (∀ (haversine : Val × Val → Val × Val → ℚ) (devices config packet : Val)
        (d0 cur : Option (Val × Val)),
      LocationFilter.devicePos devices config = .ok d0 →
      LocationFilter.sourcePos packet = .ok none →
      LocationFilter.staticPos config d0 = .ok cur →
      keyMem "latitude" config = .ok false →
      keyMem "longitude" config = .ok false →
      LocationFilter.do_action haversine devices config packet = .ok (some packet)) := by
  constructor
  · intro research config p dec av fv tov hp hdec hnt hport hfrom hto happ hfromc htoc
    simp [MessageFilter.do_action, MessageFilter.attrSection, MessageFilter.attrCheck,
          hp, hdec, hnt, hport, hfrom, hto, happ, hfromc, htoc]
  · intro hav devices config packet d0 cur hdev hsrc hstat hml hmg
    cases cur with
    | none =>
        simp [LocationFilter.do_action, LocationFilter.dropStep,
              LocationFilter.finishStep, LocationFilter.applyMask,
              LocationFilter.maskLat, LocationFilter.maskLng,
              hdev, hsrc, hstat, hml, hmg]
    | some cp =>
        simp [LocationFilter.do_action, LocationFilter.dropStep,
              LocationFilter.finishStep, LocationFilter.applyMask,
              LocationFilter.maskLat, LocationFilter.maskLng,
              hdev, hsrc, hstat, hml, hmg]

/-- Witness for C5 (amended) at concrete packets. -/
theorem missing_fields_behavior_witness :
    MessageFilter.do_action (fun _ _ => true) (.vDict .nil)
        (some (.vDict (.cons "decoded" (.vDict (.cons "portnum" (.vStr "T") .nil))
          (.cons "fromId" (.vStr "!a") (.cons "toId" (.vStr "!b") .nil)))))
      = .ok (some (.vDict (.cons "decoded" (.vDict (.cons "portnum" (.vStr "T") .nil))
          (.cons "fromId" (.vStr "!a") (.cons "toId" (.vStr "!b") .nil))))) ∧
    LocationFilter.do_action (fun _ _ => 0) (.vDict .nil)
        (.vDict (.cons "max_distance_km" (.vNum 50) .nil)) (.vDict .nil)
      = .ok (some (.vDict .nil)) :=
  ⟨missing_fields_behavior.1 (fun _ _ => true) (.vDict .nil)
     (.vDict (.cons "decoded" (.vDict (.cons "portnum" (.vStr "T") .nil))
       (.cons "fromId" (.vStr "!a") (.cons "toId" (.vStr "!b") .nil))))
     (.vDict (.cons "portnum" (.vStr "T") .nil))
     (.vStr "T") (.vStr "!a") (.vStr "!b")
     (by decide) (by decide) (by decide) (by decide) (by decide) (by decide)
     (by decide) (by decide) (by decide),
   missing_fields_behavior.2 (fun _ _ => 0) (.vDict .nil)
     (.vDict (.cons "max_distance_km" (.vNum 50) .nil)) (.vDict .nil)
     none none (by decide) (by decide) (by decide) (by decide) (by decide)⟩

/-- C5 counterexample: a packet lacking `decoded.portnum` (and
`fromId`/`toId`) makes the message filter raise KeyError even with an empty
configuration, against the claim that a stage never raises on packets
lacking the fields it inspects. -/
theorem missing_fields_raises_counterexample :
    MessageFilter.do_action (fun _ _ => true) (.vDict .nil)
        (some (.vDict (.cons "decoded" (.vDict .nil) .nil)))
      = .error "KeyError" := by
  decide

/-- C6 (amended): when the named broker connection is established but not
connected at send time, the broker egress adapter returns the no-value
(dropped) marker via its bare `return` — not the unmodified packet — and
the send step of the position-publishing adapter does the same. -/
theorem broker_not_connected_drops :
    (∀ (mqtt_servers config packet nm : Val),
      keyMem "name" config = .ok true →
      keyMem "topic" config = .ok true →
      dictGet config "name" = .ok nm →
      valMemV nm mqtt_servers = .ok true →
      getItem mqtt_servers nm = .ok (.vBool false) →
      MQTTPlugin.do_action mqtt_servers config packet = .ok none) ∧
    (∀ (mqtt_servers config entry message packet srv : Val),
      dictGet config "server_name" = .ok srv →
      valMemV srv mqtt_servers = .ok true →
      getItem mqtt_servers srv = .ok (.vBool false) →
      OwntracksPlugin.publishPart mqtt_servers config entry message packet
        = .ok none) := by
  constructor
  · intro mqtt_servers config packet nm hname htopic hnm hest hsrv
    simp [MQTTPlugin.do_action, hname, htopic, hnm, hest, hsrv]
  · intro mqtt_servers config entry message packet srv hsrvn hest hconn
    simp [OwntracksPlugin.publishPart, hsrvn, hest, hconn]

/-- Witness for C6 (amended) at a concrete disconnected broker. -/
theorem broker_not_connected_drops_witness :
    MQTTPlugin.do_action (.vDict (.cons "srv" (.vBool false) .nil))
        (.vDict (.cons "name" (.vStr "srv") (.cons "topic" (.vStr "t") .nil)))
        (.vDict .nil) = .ok none ∧
    OwntracksPlugin.publishPart (.vDict (.cons "srv" (.vBool false) .nil))
        (.vDict (.cons "server_name" (.vStr "srv") .nil))
        (.vList .nil) (.vDict .nil) (.vDict .nil) = .ok none :=
  ⟨broker_not_connected_drops.1 (.vDict (.cons "srv" (.vBool false) .nil))
     (.vDict (.cons "name" (.vStr "srv") (.cons "topic" (.vStr "t") .nil)))
     (.vDict .nil) (.vStr "srv")
     (by decide) (by decide) (by decide) (by decide) (by decide),
   broker_not_connected_drops.2 (.vDict (.cons "srv" (.vBool false) .nil))
     (.vDict (.cons "server_name" (.vStr "srv") .nil))
     (.vList .nil) (.vDict .nil) (.vDict .nil) (.vStr "srv")
     (by decide) (by decide) (by decide)⟩

/-- C6 counterexample: with an established but disconnected broker, both
adapters return the no-value (dropped) marker, not the packet unmodified as
claimed. -/
theorem broker_not_connected_counterexample :
    MQTTPlugin.do_action (.vDict (.cons "srv" (.vBool false) .nil))
        (.vDict (.cons "name" (.vStr "srv") (.cons "topic" (.vStr "t") .nil)))
        (.vDict .nil) = .ok none ∧
    MQTTPlugin.do_action (.vDict (.cons "srv" (.vBool false) .nil))
        (.vDict (.cons "name" (.vStr "srv") (.cons "topic" (.vStr "t") .nil)))
        (.vDict .nil) ≠ .ok (some (.vDict .nil)) ∧
    OwntracksPlugin.do_action (.vDict (.cons "srv" (.vBool false) .nil))
        (.vDict (.cons "tid_table"
          (.vDict (.cons "x" (.vList (.cons (.vStr "u") (.cons (.vStr "t") .nil))) .nil))
          (.cons "server_name" (.vStr "srv") .nil)))
        (.vDict (.cons "from" (.vStr "x")
          (.cons "decoded" (.vDict (.cons "position"
            (.vDict (.cons "latitude" (.vNum 1)
              (.cons "longitude" (.vNum 2) (.cons "time" (.vNum 3) .nil)))) .nil))
          (.cons "rxTime" (.vNum 4) .nil)))) = .ok none := by
  refine ⟨by decide, by decide, by decide⟩

/-- C7: with both positions resolved, a positive threshold and distance
exactly equal to the threshold, the geofence drops under neither `within`
(drop only when distance is strictly greater) nor `outside` (drop only when
strictly smaller); distance 0 always passes under `within`; an absent or
nonpositive threshold imposes no distance constraint. -/
theorem geofence_boundary_strictness :
    (∀ (haversine : Val × Val → Val × Val → ℚ) (devices config packet : Val)
        (d0 : Option (Val × Val)) (mp cp : Val × Val) (q mv : Val) (t : ℚ),
      LocationFilter.devicePos devices config = .ok d0 →
      LocationFilter.sourcePos packet = .ok (some mp) →
      LocationFilter.staticPos config d0 = .ok (some cp) →
      LocationFilter.getComparison config = .ok (.vStr "within") →
      keyMem "max_distance_km" config = .ok true →
      dictGet config "max_distance_km" = .ok mv →
      toNum mv = .ok t → 0 < t →
      haversine mp cp = t →
      LocationFilter.applyMask config packet = .ok q →
      LocationFilter.do_action haversine devices config packet = .ok (some q)) ∧
    (∀ (haversine : Val × Val → Val × Val → ℚ) (devices config packet : Val)
        (d0 : Option (Val × Val)) (mp cp : Val × Val) (q mv : Val) (t : ℚ),
      LocationFilter.devicePos devices config = .ok d0 →
      LocationFilter.sourcePos packet = .ok (some mp) →
      LocationFilter.staticPos config d0 = .ok (some cp) →
      LocationFilter.getComparison config = .ok (.vStr "outside") →
      keyMem "max_distance_km" config = .ok true →
      dictGet config "max_distance_km" = .ok mv →
      toNum mv = .ok t → 0 < t →
      haversine mp cp = t →
      LocationFilter.applyMask config packet = .ok q →
      LocationFilter.do_action haversine devices config packet = .ok (some q)) ∧
    (∀ (haversine : Val × Val → Val × Val → ℚ) (devices config packet : Val)
        (d0 : Option (Val × Val)) (mp cp : Val × Val) (q mv : Val) (t : ℚ),
      LocationFilter.devicePos devices config = .ok d0 →
      LocationFilter.sourcePos packet = .ok (some mp) →
      LocationFilter.staticPos config d0 = .ok (some cp) →
      LocationFilter.getComparison config = .ok (.vStr "within") →
      keyMem "max_distance_km" config = .ok true →
      dictGet config "max_distance_km" = .ok mv →
      toNum mv = .ok t → 0 < t →
      haversine mp cp = 0 →
      LocationFilter.applyMask config packet = .ok q →
      LocationFilter.do_action haversine devices config packet = .ok (some q)) ∧
    (∀ (haversine : Val × Val → Val × Val → ℚ) (devices config packet : Val)
        (d0 : Option (Val × Val)) (mp cp : Val × Val) (q c : Val),
      LocationFilter.devicePos devices config = .ok d0 →
      LocationFilter.sourcePos packet = .ok (some mp) →
      LocationFilter.staticPos config d0 = .ok (some cp) →
      LocationFilter.getComparison config = .ok c →
      keyMem "max_distance_km" config = .ok false →
      LocationFilter.applyMask config packet = .ok q →
      LocationFilter.do_action haversine devices config packet = .ok (some q)) ∧
    (∀ (haversine : Val × Val → Val × Val → ℚ) (devices config packet : Val)
        (d0 : Option (Val × Val)) (mp cp : Val × Val) (c mv : Val) (t : ℚ),
      LocationFilter.devicePos devices config = .ok d0 →
      LocationFilter.sourcePos packet = .ok (some mp) →
      LocationFilter.staticPos config d0 = .ok (some cp) →
      LocationFilter.getComparison config = .ok c →
      keyMem "max_distance_km" config = .ok true →
      dictGet config "max_distance_km" = .ok mv →
      toNum mv = .ok t → t ≤ 0 →
      LocationFilter.do_action haversine devices config packet
        = (LocationFilter.applyMask config packet).map some) := by
  refine ⟨?_, ?_, ?_, ?_, ?_⟩
  · intro hav devices config packet d0 mp cp q mv t hdev hsrc hstat hcmp hmm hmv ht h0 hd hq
    simp [LocationFilter.do_action, LocationFilter.dropStep,
          LocationFilter.finishStep, LocationFilter.distanceCheck,
          hdev, hsrc, hstat, hcmp, hmm, hmv, ht, h0, hd, hq, lt_self_iff_false]
  · intro hav devices config packet d0 mp cp q mv t hdev hsrc hstat hcmp hmm hmv ht h0 hd hq
    simp [LocationFilter.do_action, LocationFilter.dropStep,
          LocationFilter.finishStep, LocationFilter.distanceCheck,
          hdev, hsrc, hstat, hcmp, hmm, hmv, ht, h0, hd, hq, lt_self_iff_false]
  · intro hav devices config packet d0 mp cp q mv t hdev hsrc hstat hcmp hmm hmv ht h0 hd hq
    have hng : ¬(t < (0 : ℚ)) := not_lt.mpr h0.le
    simp [LocationFilter.do_action, LocationFilter.dropStep,
          LocationFilter.finishStep, LocationFilter.distanceCheck,
          hdev, hsrc, hstat, hcmp, hmm, hmv, ht, h0, hd, hng, hq]
  · intro hav devices config packet d0 mp cp q c hdev hsrc hstat hcmp hmm hq
    simp [LocationFilter.do_action, LocationFilter.dropStep,
          LocationFilter.finishStep, LocationFilter.distanceCheck,
          hdev, hsrc, hstat, hcmp, hmm, hq]
  · intro hav devices config packet d0 mp cp c mv t hdev hsrc hstat hcmp hmm hmv ht h0
    have hng : ¬(0 < t) := not_lt.mpr h0
    cases hm : LocationFilter.applyMask config packet with
    | ok r =>
        simp [LocationFilter.do_action, LocationFilter.dropStep,
              LocationFilter.finishStep, LocationFilter.distanceCheck,
              hdev, hsrc, hstat, hcmp, hmm, hmv, ht, hng, hm, Except.map]
    | error e =>
        simp [LocationFilter.do_action, LocationFilter.dropStep,
              LocationFilter.finishStep, LocationFilter.distanceCheck,
              hdev, hsrc, hstat, hcmp, hmm, hmv, ht, hng, hm, Except.map]

/-- Witness for C7 at concrete positions: distance equal to the 5 km
threshold under `within`, under `outside`, distance 0, and an absent
threshold, each passing. -/
theorem geofence_boundary_strictness_witness :
    LocationFilter.do_action (fun _ _ => 5) (.vDict .nil)
        (.vDict (.cons "compare_latitude" (.vNum 1)
          (.cons "compare_longitude" (.vNum 2)
            (.cons "max_distance_km" (.vNum 5) .nil))))
        (.vDict (.cons "decoded" (.vDict (.cons "position"
          (.vDict (.cons "latitude" (.vNum 3) (.cons "longitude" (.vNum 4) .nil)))
          .nil)) .nil))
      = .ok (some (.vDict (.cons "decoded" (.vDict (.cons "position"
          (.vDict (.cons "latitude" (.vNum 3) (.cons "longitude" (.vNum 4) .nil)))
          .nil)) .nil))) ∧
    LocationFilter.do_action (fun _ _ => 5) (.vDict .nil)
        (.vDict (.cons "comparison" (.vStr "outside")
          (.cons "compare_latitude" (.vNum 1)
            (.cons "compare_longitude" (.vNum 2)
              (.cons "max_distance_km" (.vNum 5) .nil)))))
        (.vDict (.cons "decoded" (.vDict (.cons "position"
          (.vDict (.cons "latitude" (.vNum 3) (.cons "longitude" (.vNum 4) .nil)))
          .nil)) .nil))
      = .ok (some (.vDict (.cons "decoded" (.vDict (.cons "position"
          (.vDict (.cons "latitude" (.vNum 3) (.cons "longitude" (.vNum 4) .nil)))
          .nil)) .nil))) := by
  constructor
  · exact geofence_boundary_strictness.1 (fun _ _ => 5) (.vDict .nil)
      (.vDict (.cons "compare_latitude" (.vNum 1)
        (.cons "compare_longitude" (.vNum 2)
          (.cons "max_distance_km" (.vNum 5) .nil))))
      (.vDict (.cons "decoded" (.vDict (.cons "position"
        (.vDict (.cons "latitude" (.vNum 3) (.cons "longitude" (.vNum 4) .nil)))
        .nil)) .nil))
      none ((.vNum 3), (.vNum 4)) ((.vNum 1), (.vNum 2)) _ (.vNum 5) 5
      (by decide) (by decide) (by decide) (by decide) (by decide) (by decide)
      (by decide) (by decide) rfl (by decide)
  · exact geofence_boundary_strictness.2.1 (fun _ _ => 5) (.vDict .nil)
      (.vDict (.cons "comparison" (.vStr "outside")
        (.cons "compare_latitude" (.vNum 1)
          (.cons "compare_longitude" (.vNum 2)
            (.cons "max_distance_km" (.vNum 5) .nil)))))
      (.vDict (.cons "decoded" (.vDict (.cons "position"
        (.vDict (.cons "latitude" (.vNum 3) (.cons "longitude" (.vNum 4) .nil)))
        .nil)) .nil))
      none ((.vNum 3), (.vNum 4)) ((.vNum 1), (.vNum 2)) _ (.vNum 5) 5
      (by decide) (by decide) (by decide) (by decide) (by decide) (by decide)
      (by decide) (by decide) rfl (by decide)

/-- Invert a successful `Except` bind. -/
theorem ebind_ok_inv {α β : Type} {e : Except String α} {f : α → Except String β}
    {b : β} (h : (e >>= f) = .ok b) : ∃ a, e = .ok a ∧ f a = .ok b := by
  cases e with
  | ok a => exact ⟨a, rfl, h⟩
  | error msg => simp at h

/-- Invert a successful dict assignment. -/
theorem setItem_ok_inv {c : Val} {k : String} {x r : Val}
    (h : setItem c k x = .ok r) :
    ∃ kvs, c = .vDict kvs ∧ r = .vDict (setKV kvs k x) := by
  cases c <;> simp [setItem] at h
  case vDict kvs => exact ⟨kvs, rfl, h.symm⟩

/-- Subscripting the key just set yields the new value. -/
theorem dictGet_setKV_self (kvs : ValD) (k : String) (x : Val) :
    dictGet (.vDict (setKV kvs k x)) k = .ok x := by
  simp [dictGet, getItem, getKV_setKV_self]

/-- Subscripting a different key after a set is unchanged. -/
theorem dictGet_setKV_ne (kvs : ValD) (k k2 : String) (x : Val) (h : k2 ≠ k) :
    dictGet (.vDict (setKV kvs k x)) k2 = dictGet (.vDict kvs) k2 := by
  simp [dictGet, getItem, getKV_setKV_ne kvs k k2 x h]

/-- A geofence run that returns a packet ran the masking step on the input
packet and returned its result. -/
theorem locationFilter_success_mask {haversine : Val × Val → Val × Val → ℚ}
    {devices config packet q : Val}
    (h : LocationFilter.do_action haversine devices config packet = .ok (some q)) :
    LocationFilter.applyMask config packet = .ok q := by
  unfold LocationFilter.do_action at h
  obtain ⟨cur0, h1, h⟩ := ebind_ok_inv h
  obtain ⟨msrc, h2, h⟩ := ebind_ok_inv h
  obtain ⟨cur, h3, h⟩ := ebind_ok_inv h
  obtain ⟨dropped, h4, h⟩ := ebind_ok_inv h
  cases dropped with
  | true => simp [LocationFilter.finishStep] at h
  | false =>
      unfold LocationFilter.finishStep at h
      simp only [Bool.false_eq_true, if_false] at h
      obtain ⟨p2, h5, h6⟩ := ebind_ok_inv h
      simp at h6
      rwa [h6] at h5

/-- A successful masking step with `latitude` configured returns a packet
whose `decoded.position.latitude` is the configured value. -/
theorem applyMask_sets_latitude {config packet q lv : Val}
    (hm : LocationFilter.applyMask config packet = .ok q)
    (hk : keyMem "latitude" config = .ok true)
    (hv : dictGet config "latitude" = .ok lv) :
    (do
      let dec ← dictGet q "decoded"
      let pos ← dictGet dec "position"
      dictGet pos "latitude") = .ok lv := by
  unfold LocationFilter.applyMask at hm
  obtain ⟨p1, hmla, hmln⟩ := ebind_ok_inv hm
  unfold LocationFilter.maskLat at hmla
  rw [hk] at hmla
  simp only [ebind_ok, if_true] at hmla
  rw [hv] at hmla
  simp only [ebind_ok] at hmla
  obtain ⟨dec0, hdec0, hmla⟩ := ebind_ok_inv hmla
  obtain ⟨pos0, hpos0, hmla⟩ := ebind_ok_inv hmla
  obtain ⟨pos2, hset1, hmla⟩ := ebind_ok_inv hmla
  obtain ⟨dec2, hset2, hset3⟩ := ebind_ok_inv hmla
  obtain ⟨pk, hpk, hpos2⟩ := setItem_ok_inv hset1
  obtain ⟨dk, hdk, hdec2⟩ := setItem_ok_inv hset2
  obtain ⟨pkk, hpkk, hp1⟩ := setItem_ok_inv hset3
  unfold LocationFilter.maskLng at hmln
  obtain ⟨hasLng, hlngk, hmln⟩ := ebind_ok_inv hmln
  cases hasLng with
  | false =>
      simp only [Bool.false_eq_true, if_false, epure_eq, Except.ok.injEq] at hmln
      subst hmln
      subst hp1 hdec2 hpos2
      simp [dictGet_setKV_self]
  | true =>
      simp only [if_true] at hmln
      obtain ⟨lv2, hlv2, hmln⟩ := ebind_ok_inv hmln
      obtain ⟨decB, hdecB, hmln⟩ := ebind_ok_inv hmln
      obtain ⟨posB, hposB, hmln⟩ := ebind_ok_inv hmln
      obtain ⟨pos2B, hsetB1, hmln⟩ := ebind_ok_inv hmln
      obtain ⟨dec2B, hsetB2, hsetB3⟩ := ebind_ok_inv hmln
      subst hp1 hdec2 hpos2
      rw [dictGet_setKV_self] at hdecB
      cases hdecB
      rw [dictGet_setKV_self] at hposB
      cases hposB
      obtain ⟨pkB, hpkB, hpos2B⟩ := setItem_ok_inv hsetB1
      obtain ⟨dkB, hdkB, hdec2B⟩ := setItem_ok_inv hsetB2
      obtain ⟨qk, hqk, hq⟩ := setItem_ok_inv hsetB3
      cases hpkB
      cases hdkB
      cases hqk
      subst hpos2B hdec2B hq
      have hne : dictGet (Val.vDict (setKV (setKV pk "latitude" lv) "longitude" lv2))
          "latitude" = dictGet (Val.vDict (setKV pk "latitude" lv)) "latitude" :=
        dictGet_setKV_ne _ _ _ _ (by decide)
      simp [setKV_setKV, dictGet_setKV_self, hne]

/-- A successful masking step with `longitude` configured returns a packet
whose `decoded.position.longitude` is the configured value. -/
theorem applyMask_sets_longitude {config packet q lv : Val}
    (hm : LocationFilter.applyMask config packet = .ok q)
    (hk : keyMem "longitude" config = .ok true)
    (hv : dictGet config "longitude" = .ok lv) :
    (do
      let dec ← dictGet q "decoded"
      let pos ← dictGet dec "position"
      dictGet pos "longitude") = .ok lv := by
  unfold LocationFilter.applyMask at hm
  obtain ⟨p1, hmla, hmln⟩ := ebind_ok_inv hm
  unfold LocationFilter.maskLng at hmln
  rw [hk] at hmln
  simp only [ebind_ok, if_true] at hmln
  rw [hv] at hmln
  simp only [ebind_ok] at hmln
  obtain ⟨decB, hdecB, hmln⟩ := ebind_ok_inv hmln
  obtain ⟨posB, hposB, hmln⟩ := ebind_ok_inv hmln
  obtain ⟨pos2B, hsetB1, hmln⟩ := ebind_ok_inv hmln
  obtain ⟨dec2B, hsetB2, hsetB3⟩ := ebind_ok_inv hmln
  obtain ⟨pkB, hpkB, hpos2B⟩ := setItem_ok_inv hsetB1
  obtain ⟨dkB, hdkB, hdec2B⟩ := setItem_ok_inv hsetB2
  obtain ⟨qk, hqk, hq⟩ := setItem_ok_inv hsetB3
  subst hpos2B hdec2B hq hqk
  simp [dictGet_setKV_self]

/-- C8 (amended): whenever the geofence stage returns a packet (in
particular when the distance check was skipped), a configured `latitude`
(resp. `longitude`) has been written into the packet's
`decoded.position`; but the stage is not failure-free: the masking
subscripts raise KeyError on a packet without a `decoded.position`
mapping. -/
theorem geofence_masking_on_success :
    (∀ (haversine : Val × Val → Val × Val → ℚ) (devices config packet q lv : Val),
      LocationFilter.do_action haversine devices config packet = .ok (some q) →
      keyMem "latitude" config = .ok true →
      dictGet config "latitude" = .ok lv →
      (do
        let dec ← dictGet q "decoded"
        let pos ← dictGet dec "position"
        dictGet pos "latitude") = .ok lv) ∧
    (∀ (haversine : Val × Val → Val × Val → ℚ) (devices config packet q lv : Val),
      LocationFilter.do_action haversine devices config packet = .ok (some q) →
      keyMem "longitude" config = .ok true →
      dictGet config "longitude" = .ok lv →
      (do
        let dec ← dictGet q "decoded"
        let pos ← dictGet dec "position"
        dictGet pos "longitude") = .ok lv) := by
  constructor
  · intro hav devices config packet q lv h hk hv
    exact applyMask_sets_latitude (locationFilter_success_mask h) hk hv
  · intro hav devices config packet q lv h hk hv
    exact applyMask_sets_longitude (locationFilter_success_mask h) hk hv

/-- Witness for C8 (amended): a run with both masks configured and a
position-free distance check overwrites both coordinates. -/
theorem geofence_masking_on_success_witness :
    (do
      let dec ← dictGet (.vDict (.cons "decoded" (.vDict (.cons "position"
        (.vDict (.cons "latitude" (.vNum 9) (.cons "longitude" (.vNum 8) .nil)))
        .nil)) .nil) : Val) "decoded"
      let pos ← dictGet dec "position"
      dictGet pos "latitude") = .ok (.vNum 9) := by
  have h : LocationFilter.do_action (fun _ _ => 0) (.vDict .nil)
      (.vDict (.cons "latitude" (.vNum 9) (.cons "longitude" (.vNum 8) .nil)))
      (.vDict (.cons "decoded" (.vDict (.cons "position"
        (.vDict (.cons "latitude" (.vNum 1) (.cons "longitude" (.vNum 2) .nil)))
        .nil)) .nil))
      = .ok (some (.vDict (.cons "decoded" (.vDict (.cons "position"
        (.vDict (.cons "latitude" (.vNum 9) (.cons "longitude" (.vNum 8) .nil)))
        .nil)) .nil))) := by decide
  exact geofence_masking_on_success.1 (fun _ _ => 0) (.vDict .nil)
    (.vDict (.cons "latitude" (.vNum 9) (.cons "longitude" (.vNum 8) .nil)))
    (.vDict (.cons "decoded" (.vDict (.cons "position"
      (.vDict (.cons "latitude" (.vNum 1) (.cons "longitude" (.vNum 2) .nil)))
      .nil)) .nil))
    (.vDict (.cons "decoded" (.vDict (.cons "position"
      (.vDict (.cons "latitude" (.vNum 9) (.cons "longitude" (.vNum 8) .nil)))
      .nil)) .nil))
    (.vNum 9) h (by decide) (by decide)

/-- C8 counterexample: with `latitude` configured and a packet without
`decoded`, the geofence stage raises KeyError, against the claim that
applying the stage never fails. -/
theorem geofence_masking_raises_counterexample :
    LocationFilter.do_action (fun _ _ => 0) (.vDict .nil)
        (.vDict (.cons "latitude" (.vNum 1) .nil)) (.vDict .nil)
      = .error "KeyError" := by
  decide

/-- A key with no binding is not a member. -/
theorem anyKeyEq_of_getKV_none : (kvs : ValD) → (k : String) →
    getKV kvs k = none → ValD.anyKeyEq kvs (.vStr k) = false
  | .nil, k, _ => rfl
  | .cons k2 v2 rest, k, h => by
      by_cases h2 : k2 = k
      · simp [getKV, h2] at h
      · simp [getKV, h2] at h
        simp [ValD.anyKeyEq, anyKeyEq_of_getKV_none rest k h, h2]

/-- The NoStr environment loop rewrites the private-key entry to its fully
env-substituted value and changes nothing else. -/
theorem nostr_envLoop_eq : (env : List (String × String)) → (kvs : ValD) →
    (pk : String) → getKV kvs "private_key" = some (.vStr pk) →
    NoStrPlugin.envLoop env (.vDict kvs) =
      .ok (.vDict (setKV kvs "private_key" (.vStr (envSubst env pk))))
  | [], kvs, pk, h => by
      simp [NoStrPlugin.envLoop, envSubst, setKV_getKV_self kvs _ _ h]
  | (ek, ev) :: rest, kvs, pk, h => by
      have hg : dictGet (Val.vDict kvs) "private_key" = .ok (.vStr pk) := by
        simp [dictGet, getItem, h]
      unfold NoStrPlugin.envLoop
      rw [hg]
      simp only [ebind_ok]
      by_cases hc : pyContains pk ("\x7b" ++ ek ++ "\x7d")
      · rw [if_pos hc]
        simp only [setItem, ebind_ok]
        rw [nostr_envLoop_eq rest _ _ (getKV_setKV_self kvs _ _)]
        rw [setKV_setKV]
        have he : envSubst ((ek, ev) :: rest) pk =
            envSubst rest (pyReplace pk ("\x7b" ++ ek ++ "\x7d") ev) := by
          simp [envSubst, hc]
        rw [he]
      · rw [if_neg hc]
        rw [nostr_envLoop_eq rest kvs pk h]
        have he : envSubst ((ek, ev) :: rest) pk = envSubst rest pk := by
          simp [envSubst, hc]
        rw [he]

/-- C10 (amended): every stage leaves its configuration mapping unchanged
except the NoStr and webhook stages: the NoStr stage rewrites its
`private_key` entry in place, replacing every environment placeholder with
the value from the environment, and the webhook stage rewrites its `headers`
entry in place with the env-substituted header values (a single-entry
headers dict is rewritten to exactly its substituted value); the key-file re-read of the crypto
stages does not touch the configuration. -/
theorem config_mutation_characterization :
    (∀ (env : List (String × String))
        (parseNsec parseNpub : String → Except String String)
        (kvs : ValD) (packet : Val) (pk : String),
      getKV kvs "private_key" = some (.vStr pk) →
      ValD.anyKeyEq kvs (.vStr "public_key") = true →
      getKV kvs "relays" = none →
      (NoStrPlugin.do_action env parseNsec parseNpub (.vDict kvs) packet).2 =
        .vDict (setKV kvs "private_key" (.vStr (envSubst env pk)))) ∧
    (∀ (post : String → ValD → Val → Bool) (env : List (String × String))
        (kvs h h2 : ValD) (packet : Val) (body : String) (payload url : Val),
      keyMem "active" (.vDict kvs) = .ok false →
      keyMem "body" (.vDict kvs) = .ok true →
      WebhookPlugin.buildBody (.vDict kvs) packet = .ok body →
      jsonLoads (.vStr body) = .ok payload →
      dictGet (.vDict kvs) "url" = .ok url →
      getKV kvs "headers" = some (.vDict h) →
      WebhookPlugin.headersLoop env h h = .ok h2 →
      (WebhookPlugin.do_action post env (.vDict kvs) packet).2 =
        .vDict (setKV kvs "headers" (.vDict h2))) ∧
    (∀ (env : List (String × String)) (k s : String),
      WebhookPlugin.headersLoop env (.cons k (.vStr s) .nil)
          (.cons k (.vStr s) .nil) =
        .ok (.cons k (.vStr (envSubst env s)) .nil)) := by
  refine ⟨?_, ?_, ?_⟩
  · intro env pn pp kvs packet pk hpk hpub hrel
    have h1 : keyMem "private_key" (.vDict kvs) = .ok true := by
      simp [keyMem, valMemV, anyKeyEq_of_getKV kvs _ _ hpk]
    have h2 : keyMem "public_key" (.vDict kvs) = .ok true := by
      simp [keyMem, valMemV, hpub]
    have h3 : NoStrPlugin.relaysPart (.vDict kvs) = .ok () := by
      simp [NoStrPlugin.relaysPart, keyMem, valMemV,
            anyKeyEq_of_getKV_none kvs _ hrel]
    unfold NoStrPlugin.do_action
    rw [h1, h2]
    unfold NoStrPlugin.mainPart
    rw [h3, nostr_envLoop_eq env kvs pk hpk]
    dsimp only
    cases hs : NoStrPlugin.signPart pn pp
        (.vDict (setKV kvs "private_key" (.vStr (envSubst env pk)))) packet with
    | ok u => cases u; rfl
    | error e => rfl
  · intro post env kvs h h2 packet body payload url hactive hbody hbuild hloads hurl
      hhead hloop
    have hkm : keyMem "headers" (.vDict kvs) = .ok true := by
      simp [keyMem, valMemV, anyKeyEq_of_getKV kvs _ _ hhead]
    have hgd : dictGet (.vDict kvs) "headers" = .ok (.vDict h) := by
      simp [dictGet, getItem, hhead]
    unfold WebhookPlugin.do_action
    rw [hactive]
    simp only [ebind_ok, Bool.not_false, if_true, Bool.not_true, if_false,
               Bool.false_eq_true, epure_eq]
    rw [hbody]
    rw [hbuild]
    simp only [ebind_ok]
    rw [hloads]
    simp only [ebind_ok]
    rw [hurl]
    simp only [ebind_ok, epure_eq]
    rw [hkm, hgd]
    simp only [reduceIte]
    rw [hloop]
    cases url <;> rfl
  · intro env k s
    simp [WebhookPlugin.headersLoop, setKV]

/-- Witness for C10 (amended): a concrete NoStr configuration whose
private key holds a placeholder is rewritten in place, and a concrete
single-entry header dict is substituted. -/
theorem config_mutation_characterization_witness :
    (NoStrPlugin.do_action [("SECRET", "abc")] (fun s => .ok s) (fun s => .ok s)
        (.vDict (.cons "private_key" (.vStr "x\x7bSECRET\x7dy")
          (.cons "public_key" (.vStr "npub1") .nil)))
        (.vDict (.cons "decoded" (.vDict (.cons "text" (.vStr "hello") .nil)) .nil))).2
      = .vDict (.cons "private_key" (.vStr "xabcy")
          (.cons "public_key" (.vStr "npub1") .nil)) ∧
    WebhookPlugin.headersLoop [("TOKEN", "s3cr3t")]
        (.cons "auth" (.vStr "Bearer \x7bTOKEN\x7d") .nil)
        (.cons "auth" (.vStr "Bearer \x7bTOKEN\x7d") .nil)
      = .ok (.cons "auth" (.vStr "Bearer s3cr3t") .nil) := by
  constructor
  · have := config_mutation_characterization.1 [("SECRET", "abc")]
      (fun s => .ok s) (fun s => .ok s)
      (.cons "private_key" (.vStr "x\x7bSECRET\x7dy")
        (.cons "public_key" (.vStr "npub1") .nil))
      (.vDict (.cons "decoded" (.vDict (.cons "text" (.vStr "hello") .nil)) .nil))
      "x\x7bSECRET\x7dy" (by decide) (by decide) (by decide)
    rw [this]
    decide
  · have := config_mutation_characterization.2.2 [("TOKEN", "s3cr3t")] "auth"
      "Bearer \x7bTOKEN\x7d"
    rw [this]
    decide

/-- C10 counterexample: applying the NoStr stage with an environment entry
matching a placeholder in `private_key` changes the configuration of the stage
mapping, against the claim that configuration is immutable across every
stage. -/
theorem config_mutation_counterexample :
    (NoStrPlugin.do_action [("SECRET", "abc")] (fun s => .ok s) (fun s => .ok s)
        (.vDict (.cons "private_key" (.vStr "x\x7bSECRET\x7dy")
          (.cons "public_key" (.vStr "npub1") .nil)))
        (.vDict (.cons "decoded" (.vDict (.cons "text" (.vStr "hello") .nil)) .nil))).2
      ≠ .vDict (.cons "private_key" (.vStr "x\x7bSECRET\x7dy")
          (.cons "public_key" (.vStr "npub1") .nil)) := by
  decide
